import Mathlib

/-!
# ChatCompanion detection pipeline — shallow embedding

This file embeds the core detection-and-scoring pipeline of the
ChatCompanion repository (`app/detection/*`, `app/rules/*`,
`app/utils/text_processing.py`, `app/utils/constants.py`) as executable
Lean definitions, and settles the frozen claims about it.

Modelling conventions:
* Python `float` scores are embedded as `ℚ` (all constants in the source
  are short decimals, exact in `ℚ`).
* Python strings are embedded as `String` / `List Char`.  Regex fragments
  used by the source (word-boundary bounded literal alternations,
  `re.sub` scans, and the handful of quantified patterns) are embedded as
  direct character-list scanners with the same leftmost / resume-after-match
  semantics as `re.sub` / `re.finditer`.  Python's `\w` over the Unicode
  word class is modelled on the ASCII fragment (letters, digits, `_`);
  all concrete inputs used in witnesses and counterexamples are ASCII.
* Python dicts (`category -> score`, `category -> matches`) preserve
  insertion order and have unique keys; they are embedded as association
  lists, with key uniqueness (`Nodup`) as an explicit hypothesis where a
  theorem needs it.
* The pattern configuration `app/rules/rules_config.yaml` is an external
  input of the core (spec §6) and is not part of the analysed sources;
  consequently the regex-detection step `RuleEngine.detect` (whose whole
  behaviour is determined by that external configuration) enters the
  embedding as a parameter: the map `category -> list of PatternMatch`
  it would produce.  Everything downstream of detection is embedded
  faithfully from the source.
* The optional ML classifier is an external collaborator (spec §4.4); its
  per-sentence score maps enter `engineAnalyze` as a parameter.  Cosine
  similarities are bounded by 1, which is the only fact about it used.
-/

namespace ChatCompanion

set_option maxRecDepth 1000000
set_option maxHeartbeats 16000000

/-! ## Character classes (Python regex fragment, ASCII model) -/

/-- Python `\w` on the ASCII fragment: letters, digits, underscore. -/
def isWordChar (c : Char) : Bool :=
  c.isAlphanum || c == '_'

/-- Python `\s` on the ASCII fragment. -/
def isSpaceChar (c : Char) : Bool :=
  c == ' ' || c == '\t' || c == '\n' || c == '\r' || c == '\x0b' || c == '\x0c'

/-- ASCII letter (`[a-zA-Z]` in the letter-repeat regex). -/
def isAsciiLetter (c : Char) : Bool :=
  ('a' ≤ c && c ≤ 'z') || ('A' ≤ c && c ≤ 'Z')

/-- Case-insensitive character comparison (`re.IGNORECASE`, ASCII). -/
def ciEq (a b : Char) : Bool :=
  a.toLower == b.toLower

/-- Python `str.lower()` on the ASCII fragment. -/
def strLower (s : String) : String :=
  String.mk (s.data.map Char.toLower)

/-- Case-insensitively match `p` as a prefix of `l`, returning the rest. -/
def ciMatchRest : List Char → List Char → Option (List Char)
  | [], l => some l
  | _ :: _, [] => none
  | p :: ps, c :: cs => if ciEq p c then ciMatchRest ps cs else none

/-- `true` when the character after a match keeps a `\b` boundary
(match text ends in a word character, as every phrase we search does). -/
def boundaryAfter : List Char → Bool
  | [] => true
  | c :: _ => !isWordChar c

/-- `true` when the character before a match keeps a `\b` boundary. -/
def boundaryBefore : Option Char → Bool
  | none => true
  | some c => !isWordChar c

/-- One position of the word-bounded case-insensitive phrase search:
does `phrase` (starting and ending in word characters) match here? -/
def wordPhraseAt (phrase : List Char) (prev : Option Char) (l : List Char) : Bool :=
  boundaryBefore prev &&
    match ciMatchRest phrase l with
    | some rest => boundaryAfter rest
    | none => false

/-- Scan of `re.search(r"\b(phrase)\b", text, re.IGNORECASE)` for a literal
phrase that starts and ends in word characters. -/
def containsWordPhraseAux (phrase : List Char) : Option Char → List Char → Bool
  | _, [] => false
  | prev, c :: cs =>
    wordPhraseAt phrase prev (c :: cs) || containsWordPhraseAux phrase (some c) cs

def containsWordPhrase (text phrase : String) : Bool :=
  containsWordPhraseAux phrase.data none text.data

/-- `re.search` over an alternation `\b(p1|p2|...)\b` of literal phrases. -/
def containsAnyWordPhrase (text : String) (phrases : List String) : Bool :=
  phrases.any (fun p => containsWordPhrase text p)

/-- Plain substring containment, Python's `sub in s` (with `"" in s` true). -/
def containsSubAux (sub : List Char) : List Char → Bool
  | [] => sub.isEmpty
  | c :: cs => sub.isPrefixOf (c :: cs) || containsSubAux sub cs

def containsSub (s sub : String) : Bool :=
  containsSubAux sub.data s.data

/-- Python `str.strip()` (ASCII whitespace model). -/
def pyStrip (l : List Char) : List Char :=
  ((l.dropWhile isSpaceChar).reverse.dropWhile isSpaceChar).reverse

def pyStripStr (s : String) : String :=
  String.mk (pyStrip s.data)

/-- Order-preserving dedup keeping first occurrences. -/
def dedupKeepFirstAux (seen : List String) : List String → List String
  | [] => []
  | x :: xs =>
    if seen.contains x then dedupKeepFirstAux seen xs
    else x :: dedupKeepFirstAux (x :: seen) xs

def dedupKeepFirst (l : List String) : List String :=
  dedupKeepFirstAux [] l

/-- Split a character list at every occurrence of one character
(Python `str.split('\n')`). -/
def splitOnChar (sep : Char) : List Char → List (List Char)
  | [] => [[]]
  | c :: cs =>
    if c == sep then
      [] :: splitOnChar sep cs
    else
      match splitOnChar sep cs with
      | [] => [[c]]
      | piece :: rest => (c :: piece) :: rest

/-! ## Slang normalizer (`app/detection/slang_normalizer.py`) -/

/-- `NormalizedMessage` dataclass.  The Python `tone_markers` dict has
exactly the keys `"joking"` and `"annoyed"`; they are two fields here. -/
structure NormalizedMessage where
  rawText : String
  normalizedText : String
  replacements : List (String × String)
  hasEmoji : Bool
  toneJoking : Bool
  toneAnnoyed : Bool
  deriving Repr, DecidableEq

/-- Unicode general category `Cf` (format characters), by code point,
following the Unicode character database used by `unicodedata`. -/
def isCfChar (c : Char) : Bool :=
  let n := c.toNat
  n == 0xAD || (0x600 ≤ n && n ≤ 0x605) || n == 0x61C || n == 0x6DD || n == 0x70F ||
  (0x890 ≤ n && n ≤ 0x891) || n == 0x8E2 || n == 0x180E ||
  (0x200B ≤ n && n ≤ 0x200F) || (0x202A ≤ n && n ≤ 0x202E) ||
  (0x2060 ≤ n && n ≤ 0x2064) || (0x2066 ≤ n && n ≤ 0x206F) ||
  n == 0xFEFF || (0xFFF9 ≤ n && n ≤ 0xFFFB) || n == 0x110BD || n == 0x110CD ||
  (0x13430 ≤ n && n ≤ 0x1343F) || (0x1BCA0 ≤ n && n ≤ 0x1BCA3) ||
  (0x1D173 ≤ n && n ≤ 0x1D17A) || n == 0xE0001 || (0xE0020 ≤ n && n ≤ 0xE007F)

/-- `_remove_zero_width_chars`: drop `Cf` characters, keeping `\n`, `\r`, `\t`. -/
def removeZeroWidthChars (l : List Char) : List Char :=
  l.filter (fun c => !isCfChar c || c == '\n' || c == '\r' || c == '\t')

/-- Obfuscation characters `[*_\-.]` of `_normalize_obfuscation`. -/
def isObfChar (c : Char) : Bool :=
  c == '*' || c == '_' || c == '-' || c == '.'

/-- `re.sub(r"(\w)[*_\-\.]+(\w)", r"\1\2", text)`: leftmost match, replace,
resume after the second word character.  `fuel` bounds the scan by the
input length (each step consumes at least one input character). -/
def normObfuscationAux : Nat → List Char → List Char
  | 0, l => l
  | _ + 1, [] => []
  | fuel + 1, c :: cs =>
    if isWordChar c && !(cs.takeWhile isObfChar).isEmpty then
      match cs.dropWhile isObfChar with
      | c2 :: rest =>
        if isWordChar c2 then
          c :: c2 :: normObfuscationAux fuel rest
        else
          c :: normObfuscationAux fuel cs
      | [] => c :: normObfuscationAux fuel cs
    else
      c :: normObfuscationAux fuel cs

def normObfuscation (l : List Char) : List Char :=
  normObfuscationAux l.length l

/-- One attempted match of `\br\s+\.?\s*n\b` at the current position
(the `r` is at the head of `l`): returns the rest after the matched `n`. -/
def spacingMatchA (prev : Option Char) (l : List Char) : Option (List Char) :=
  if !boundaryBefore prev then none else
  match l with
  | c :: cs =>
    if !ciEq c 'r' then none else
    let ws1 := cs.takeWhile isSpaceChar
    if ws1.isEmpty then none else
    match cs.dropWhile isSpaceChar with
    | '.' :: rest2 =>
      -- optional dot taken, then `\s*`, then `n\b`
      (match rest2.dropWhile isSpaceChar with
       | d :: rest3 => if ciEq d 'n' && boundaryAfter rest3 then some rest3 else none
       | [] => none)
    | d :: rest2 => if ciEq d 'n' && boundaryAfter rest2 then some rest2 else none
    | [] => none
  | [] => none

/-- One attempted match of `\br\s*S\s*n\b` for a separator character `S`
(`.` in the second spacing variant, `-` in the third). -/
def spacingMatchSep (sep : Char) (prev : Option Char) (l : List Char) : Option (List Char) :=
  if !boundaryBefore prev then none else
  match l with
  | c :: cs =>
    if !ciEq c 'r' then none else
    match cs.dropWhile isSpaceChar with
    | s :: rest1 =>
      if s != sep then none else
      match rest1.dropWhile isSpaceChar with
      | d :: rest2 => if ciEq d 'n' && boundaryAfter rest2 then some rest2 else none
      | [] => none
    | [] => none
  | [] => none

/-- `re.sub` scan for one spacing-variant pattern, replacing matches by
`"rn"`; `matchAt` is one of the matchers above. -/
def spacingSubAux (matchAt : Option Char → List Char → Option (List Char)) :
    Nat → Option Char → List Char → List Char
  | 0, _, l => l
  | _ + 1, _, [] => []
  | fuel + 1, prev, c :: cs =>
    match matchAt prev (c :: cs) with
    | some rest => 'r' :: 'n' :: spacingSubAux matchAt fuel (some 'n') rest
    | none => c :: spacingSubAux matchAt fuel (some c) cs

/-- `_normalize_spacing_variants`: the three `re.sub` passes in order. -/
def normSpacingVariants (l : List Char) : List Char :=
  let l1 := spacingSubAux spacingMatchA l.length none l
  let l2 := spacingSubAux (spacingMatchSep '.') l1.length none l1
  spacingSubAux (spacingMatchSep '-') l2.length none l2

/-- `_normalize_letter_repeats`: `re.sub(r"([a-zA-Z])\1{2,}", char*2, ...,
flags=IGNORECASE)`: a run of 3+ case-insensitively equal letters collapses
to the first letter written twice. -/
def normLetterRepeatsAux : Nat → List Char → List Char
  | 0, l => l
  | _ + 1, [] => []
  | fuel + 1, c :: cs =>
    if isAsciiLetter c then
      let run := cs.takeWhile (fun d => isAsciiLetter d && ciEq d c)
      if run.length + 1 ≥ 3 then
        c :: c :: normLetterRepeatsAux fuel (cs.dropWhile (fun d => isAsciiLetter d && ciEq d c))
      else
        c :: normLetterRepeatsAux fuel cs
    else
      c :: normLetterRepeatsAux fuel cs

def normLetterRepeats (l : List Char) : List Char :=
  normLetterRepeatsAux l.length l

/-- Match of `w1\s+w2` (with `\b` on both outer ends) at this position,
used by the typo corrections `rite now` / `rightt now` → `right now`. -/
def twoWordMatchAt (w1 w2 : List Char) (prev : Option Char) (l : List Char) :
    Option (List Char) :=
  if !boundaryBefore prev then none else
  match ciMatchRest w1 l with
  | some rest1 =>
    let ws := rest1.takeWhile isSpaceChar
    if ws.isEmpty then none else
    match ciMatchRest w2 (rest1.dropWhile isSpaceChar) with
    | some rest2 => if boundaryAfter rest2 then some rest2 else none
    | none => none
  | none => none

def twoWordSubAux (w1 w2 repl : List Char) :
    Nat → Option Char → List Char → List Char
  | 0, _, l => l
  | _ + 1, _, [] => []
  | fuel + 1, prev, c :: cs =>
    match twoWordMatchAt w1 w2 prev (c :: cs) with
    | some rest => repl ++ twoWordSubAux w1 w2 repl fuel (some 'w') rest
    | none => c :: twoWordSubAux w1 w2 repl fuel (some c) cs

/-- Match of `\bnoww+\b` at this position. -/
def nowwMatchAt (prev : Option Char) (l : List Char) : Option (List Char) :=
  if !boundaryBefore prev then none else
  match ciMatchRest ['n', 'o', 'w', 'w'] l with
  | some rest =>
    let rest2 := rest.dropWhile (fun d => ciEq d 'w')
    if boundaryAfter rest2 then some rest2 else none
  | none => none

def nowwSubAux : Nat → Option Char → List Char → List Char
  | 0, _, l => l
  | _ + 1, _, [] => []
  | fuel + 1, prev, c :: cs =>
    match nowwMatchAt prev (c :: cs) with
    | some rest => 'n' :: 'o' :: 'w' :: nowwSubAux fuel (some 'w') rest
    | none => c :: nowwSubAux fuel (some c) cs

/-- `_normalize_typos`: the three corrections, in dict order. -/
def normTypos (l : List Char) : List Char :=
  let l1 := twoWordSubAux "rite".data "now".data "right now".data l.length none l
  let l2 := twoWordSubAux "rightt".data "now".data "right now".data l1.length none l1
  nowwSubAux l2.length none l2

/-- The abbreviation table of `SlangNormalizer.__init__`, already in the
order produced by `sorted(..., key=len, reverse=True)` (stable: longest
first, insertion order within one length). -/
def sortedAbbrevs : List (String × String) :=
  [("lmfao", "laughing"),
   ("tmrw", "tomorrow"), ("ttyl", "talk to you later"), ("ily2", "I love you too"),
   ("stfu", "shut up"), ("lmao", "laughing"), ("rofl", "laughing"),
   ("haha", "haha"), ("hehe", "hehe"),
   ("idk", "I don't know"), ("idc", "I don't care"), ("brb", "be right back"),
   ("btw", "by the way"), ("omg", "oh my god"), ("ngl", "not going to lie"),
   ("wyd", "what are you doing"), ("smh", "shaking my head"), ("tbh", "to be honest"),
   ("imo", "in my opinion"), ("fyi", "for your information"), ("thx", "thank you"),
   ("tmr", "tomorrow"), ("ily", "I love you"), ("hbu", "how about you"),
   ("wbu", "what about you"), ("nvm", "never mind"), ("ikr", "I know right"),
   ("fml", "fuck my life"), ("wtf", "what the fuck"), ("omw", "on my way"),
   ("tmi", "too much information"), ("lol", "laughing"),
   ("ur", "your"), ("jk", "just kidding"), ("fr", "for real"), ("np", "no problem"),
   ("ty", "thank you"), ("yw", "you're welcome"), ("gg", "good game"),
   ("gl", "good luck"), ("hf", "have fun"), ("af", "as fuck"), ("rn", "right now"),
   ("u", "you"), ("r", "are"), ("y", "why"), ("c", "see"), ("b", "be"), ("n", "and")]

/-- Replace every word-bounded case-insensitive occurrence of `key` by
`repl`, scanning the pre-replacement text left to right (equivalent to the
source's collect-then-replace-from-the-end loop: matches are found on the
text as it is before this key's replacements).  Also returns the matched
original substrings, in scan order. -/
def replaceAbbrevAux (key repl : List Char) :
    Nat → Option Char → List Char → List Char × List (List Char)
  | 0, _, l => (l, [])
  | _ + 1, _, [] => ([], [])
  | fuel + 1, prev, c :: cs =>
    if wordPhraseAt key prev (c :: cs) then
      let original := (c :: cs).take key.length
      let rest := (c :: cs).drop key.length
      let (out, reps) := replaceAbbrevAux key repl fuel (some (key.getLastD 'x')) rest
      (repl ++ out, original :: reps)
    else
      let (out, reps) := replaceAbbrevAux key repl fuel (some c) cs
      (c :: out, reps)

def replaceAbbrev (key repl : List Char) (l : List Char) :
    List Char × List (List Char) :=
  replaceAbbrevAux key repl l.length none l

/-- Joking / annoyed emoji sets of the normalizer. -/
def jokingEmojis : List Char := ['😂', '🤣', '😅', '😆', '😊', '😄']
def annoyedEmojis : List Char := ['😒', '😑', '🙄', '💢', '😤', '😠']

/-- `SlangNormalizer.normalize_message`.  Steps in source order: remove
zero-width characters; (a `casefold` result is computed but never used);
de-obfuscate; spacing variants; letter repeats; typos; emoji/tone
detection on the step-6 text; abbreviation expansion (each key appends
its replacement records in reverse match order, as the source's
`reversed(match_list)` loop does). -/
def normalizeMessage (text : String) : NormalizedMessage :=
  let step1 := removeZeroWidthChars text.data
  let step3 := normObfuscation step1
  let step4 := normSpacingVariants step3
  let step5 := normLetterRepeats step4
  let step6 := normTypos step5
  let jokingFound := jokingEmojis.any (fun e => step6.contains e)
  let annoyedFound := annoyedEmojis.any (fun e => step6.contains e)
  let step7 := sortedAbbrevs.foldl
    (fun (acc : List Char × List (String × String)) kv =>
      let (out, reps) := replaceAbbrev kv.1.data kv.2.data acc.1
      (out, acc.2 ++ (reps.reverse.map (fun o => (String.mk o, kv.2)))))
    (step6, [])
  { rawText := text
    normalizedText := String.mk step7.1
    replacements := step7.2
    hasEmoji := jokingFound || annoyedFound
    toneJoking := jokingFound
    toneAnnoyed := annoyedFound }

/-! ## Text processing utilities (`app/utils/text_processing.py`) -/

/-- `re.sub(r"\s+", " ", text)`: collapse each whitespace run to one space. -/
def collapseWhitespaceAux : Nat → List Char → List Char
  | 0, l => l
  | _ + 1, [] => []
  | fuel + 1, c :: cs =>
    if isSpaceChar c then
      ' ' :: collapseWhitespaceAux fuel (cs.dropWhile isSpaceChar)
    else
      c :: collapseWhitespaceAux fuel cs

/-- `normalize_text`: collapse whitespace runs, then strip. -/
def normalizeText (s : String) : String :=
  String.mk (pyStrip (collapseWhitespaceAux s.data.length s.data))

/-- Sentence-ending punctuation `[.!?]` of `segment_sentences`. -/
def isSentenceEnder (c : Char) : Bool :=
  c == '.' || c == '!' || c == '?'

/-- `re.split(r"[.!?]+", text)`: pieces between maximal ender runs. -/
def splitSentencesAux : Nat → List Char → List Char → List (List Char)
  | 0, acc, _ => [acc.reverse]
  | _ + 1, acc, [] => [acc.reverse]
  | fuel + 1, acc, c :: cs =>
    if isSentenceEnder c then
      acc.reverse :: splitSentencesAux fuel [] (cs.dropWhile isSentenceEnder)
    else
      splitSentencesAux fuel (c :: acc) cs

/-- `segment_sentences`: split on `[.!?]+`, strip, drop empties. -/
def segmentSentences (s : String) : List String :=
  ((splitSentencesAux s.data.length [] s.data).map pyStrip).filterMap
    (fun l => if l.isEmpty then none else some (String.mk l))

/-- The sentence-index search of `get_sentence_context` (and of the
cross-sentence block of `_check_pressure_context`): walk the stripped
sentences with a running start offset, adding `length + 1` per sentence. -/
def findSentenceIdxAux : List String → Nat → Nat → Nat → Option Nat
  | [], _, _, _ => none
  | s :: rest, cur, pos, i =>
    if cur ≤ pos && pos < cur + s.length then some i
    else findSentenceIdxAux rest (cur + s.length + 1) pos (i + 1)

/-- `get_sentence_context(text, position, window)`. -/
def getSentenceContext (text : String) (position : Nat) (window : Nat) : String :=
  let sentences := segmentSentences text
  match findSentenceIdxAux sentences 0 position 0 with
  | none => ""
  | some idx =>
    let startIdx := idx - window
    let endIdx := min sentences.length (idx + window + 1)
    String.intercalate " " ((sentences.drop startIdx).take (endIdx - startIdx))

/-- One findall step of `extract_message_pairs`'s regex
`(\w+):\s*(.+?)(?=\n\w+:|$)` with `MULTILINE | DOTALL`.  With `MULTILINE`,
the `$` alternative of the lookahead succeeds exactly before a `'\n'` or at
the end, so the lazy group stops at the first newline; when `\s*` runs to
the end of the text it backtracks one character so the lazy group can take
it.  Scanning resumes after the match (the lookahead is not consumed). -/
def extractPairsAux : Nat → List Char → List (String × String)
  | 0, _ => []
  | _ + 1, [] => []
  | fuel + 1, c :: cs =>
    if isWordChar c then
      let speaker := (c :: cs).takeWhile isWordChar
      match (c :: cs).dropWhile isWordChar with
      | ':' :: afterColon =>
        let ws := afterColon.takeWhile isSpaceChar
        match afterColon.dropWhile isSpaceChar with
        | [] =>
          if ws.isEmpty then extractPairsAux fuel cs
          else [(String.mk speaker, String.mk [ws.getLastD ' '])]
        | d :: rest =>
          let msg := (d :: rest).takeWhile (fun x => x != '\n')
          (String.mk speaker, String.mk msg) ::
            extractPairsAux fuel ((d :: rest).dropWhile (fun x => x != '\n'))
      | _ => extractPairsAux fuel cs
    else extractPairsAux fuel cs

/-- `extract_message_pairs`: regex findall, else the single unlabelled
message.  A `none` speaker is Python's `None`. -/
def extractMessagePairs (text : String) : List (Option String × String) :=
  let ms := extractPairsAux text.data.length text.data
  if ms.isEmpty then [(none, text)]
  else ms.map (fun p => (some (pyStripStr p.1), pyStripStr p.2))

/-! ## Pattern data model (`app/rules/patterns.py`) -/

structure Pattern where
  pattern : String
  confidence : ℚ
  description : String
  category : String
  deriving Repr, DecidableEq

structure PatternMatch where
  pattern : Pattern
  matchedText : String
  position : Nat
  confidence : ℚ
  deriving Repr, DecidableEq

/-- `matches` dict: category name → list of matches (insertion-ordered). -/
abbrev MatchMap := List (String × List PatternMatch)

/-- `category_scores` dict: category name → score. -/
abbrev ScoreMap := List (String × ℚ)

/-- Python `key in dict`. -/
def hasKey (m : MatchMap) (k : String) : Bool :=
  m.any (fun p => p.1 == k)

/-- `dict[key]` with the `[]` default used at every call site. -/
def lookupMatches : MatchMap → String → List PatternMatch
  | [], _ => []
  | p :: rest, k => if p.1 == k then p.2 else lookupMatches rest k

/-- `dict.get(key, 0.0)` on a score map. -/
def lookupScore : ScoreMap → String → ℚ
  | [], _ => 0
  | p :: rest, k => if p.1 == k then p.2 else lookupScore rest k

def hasScoreKey (s : ScoreMap) (k : String) : Bool :=
  s.any (fun p => p.1 == k)

/-- `dict[key] = v` on a key that may or may not be present: replace the
first entry with that key, else append. -/
def setMatches : MatchMap → String → List PatternMatch → MatchMap
  | [], k, v => [(k, v)]
  | p :: rest, k, v =>
    if p.1 == k then (k, v) :: rest else p :: setMatches rest k v

def setScore : ScoreMap → String → ℚ → ScoreMap
  | [], k, v => [(k, v)]
  | p :: rest, k, v =>
    if p.1 == k then (k, v) :: rest else p :: setScore rest k v

/-! ## Rule engine (`app/rules/rule_engine.py`)

`RuleEngine.detect` runs the regexes of the external configuration file
`rules_config.yaml` (not part of the analysed sources); its output — the
category → matches dict — is therefore a parameter of the embedding, and
`analyze` below is the suppression-and-scoring tail of
`RuleEngine.analyze` applied to that parameter. -/

/-- Python `max` of a nonempty list (`0` on `[]`, never used there). -/
def pyMax : List ℚ → ℚ
  | [] => 0
  | x :: xs => xs.foldl max x

/-- `get_category_score`: max confidence plus a match-count boost. -/
def getCategoryScore (ms : List PatternMatch) : ℚ :=
  if ms.isEmpty then 0
  else
    let maxConfidence := pyMax (ms.map (fun m => m.confidence))
    let matchCountBoost : ℚ :=
      if ms.length ≥ 3 then min ((ms.length - 2 : ℚ) * 0.05) 0.2
      else if ms.length ≥ 2 then 0.05
      else 0
    min (maxConfidence + matchCountBoost) 1

/-- The `no_pressure_phrases` regex list, with each `(?i)\b(...)\b`
alternation expanded to its literal phrases. -/
def noPressurePhrases : List String :=
  ["no pressure", "that's okay", "take your time", "whenever you can",
   "no rush", "no hurry",
   "it's fine if you can't", "it's fine if you don't", "it's fine if you won't",
   "it's fine that you can't", "it's fine that you don't", "it's fine that you won't",
   "it's okay if you can't", "it's okay if you don't", "it's okay if you won't",
   "it's okay that you can't", "it's okay that you don't", "it's okay that you won't",
   "it's alright if you can't", "it's alright if you don't", "it's alright if you won't",
   "it's alright that you can't", "it's alright that you don't", "it's alright that you won't",
   "no worries", "don't worry", "it's fine",
   "don't rush", "only if you have time", "whenever you're ready",
   "no need to hurry", "no need to rush", "no need to worry", "there's no rush"]

/-- `strong_pressure_indicators` (substring containment on the lowered
matched text). -/
def strongPressureIndicators : List String :=
  ["ultimatum", "threat", "or else", "we're done", "must", "have to"]

/-- The condition under which `RuleEngine.analyze` discards the pressure
matches: a "no pressure" phrase is present, no pressure match's lowered
matched text contains a strong-pressure indicator, and the `pressure` key
exists (source lines 222–241). -/
def suppressionApplies (matchesByCategory : MatchMap) (text : String) : Bool :=
  let hasSuppression := containsAnyWordPhrase text noPressurePhrases
  let hasContradiction :=
    hasSuppression && hasKey matchesByCategory "pressure" &&
      (lookupMatches matchesByCategory "pressure").any (fun m =>
        strongPressureIndicators.any (fun ind =>
          containsSub (strLower m.matchedText) ind))
  hasSuppression && !hasContradiction && hasKey matchesByCategory "pressure"

/-- `RuleEngine.analyze` downstream of `detect`: the "no pressure"
suppression and per-category scoring (source lines 209–252). -/
def ruleAnalyze (matchesByCategory : MatchMap) (text : String) :
    MatchMap × ScoreMap :=
  let matchesAfter :=
    if suppressionApplies matchesByCategory text then
      setMatches matchesByCategory "pressure" []
    else matchesByCategory
  (matchesAfter, matchesAfter.map (fun p => (p.1, getCategoryScore p.2)))

/-! ## Score aggregator (`app/detection/aggregator.py`) -/

structure ScoreAggregator where
  rulesWeight : ℚ
  mlWeight : ℚ
  deriving Repr, DecidableEq

/-- `ScoreAggregator.__init__`: normalize the weights to sum to 1,
falling back to rules-only when the total is not positive. -/
def mkScoreAggregator (rulesWeight mlWeight : ℚ) : ScoreAggregator :=
  let total := rulesWeight + mlWeight
  if total > 0 then ⟨rulesWeight / total, mlWeight / total⟩
  else ⟨1, 0⟩

/-- `aggregate_category_scores`.  Python iterates the *set* union of the
key sets (unordered); the embedding fixes the order rules-keys first, then
new ml-keys, and deduplicates — no result of the pipeline depends on the
iteration order. -/
def aggregateCategoryScores (agg : ScoreAggregator)
    (rulesScores mlScores : ScoreMap) : ScoreMap :=
  let allCategories :=
    dedupKeepFirst (rulesScores.map (fun p => p.1) ++ mlScores.map (fun p => p.1))
  allCategories.map (fun c =>
    (c, min (lookupScore rulesScores c * agg.rulesWeight +
             lookupScore mlScores c * agg.mlWeight) 1))

/-- `get_overall_risk_score`. -/
def getOverallRiskScore (categoryScores : ScoreMap) : ℚ :=
  if categoryScores.isEmpty then 0
  else
    let scores := categoryScores.map (fun p => p.2)
    let maxScore := pyMax scores
    if maxScore ≥ 0.8 then maxScore
    else
      let numCategories := scores.length
      let avgScore := scores.sum / (numCategories : ℚ)
      if numCategories ≥ 3 then
        let patternBoost := min ((numCategories - 2 : ℚ) * 0.12) 0.25
        min (maxScore * 0.55 + avgScore * 0.35 + patternBoost) 1
      else if numCategories ≥ 2 then
        min (maxScore * 0.65 + avgScore * 0.25 + 0.1) 1
      else maxScore

/-! ## Risk level constants (`app/utils/constants.py`) -/

inductive RiskLevel where
  | green
  | yellow
  | red
  deriving Repr, DecidableEq

/-- The six risk categories, in `RiskCategory` enum order. -/
def riskCategories : List String :=
  ["bullying", "manipulation", "pressure", "secrecy", "guilt_shifting", "grooming"]

/-- `DetectionEngine._determine_risk_level` with the `RISK_THRESHOLDS`. -/
def determineRiskLevel (score : ℚ) : RiskLevel :=
  if score ≥ 0.75 then RiskLevel.red
  else if score ≥ 0.3 then RiskLevel.yellow
  else RiskLevel.green

/-! ## Engine context classifiers (`app/detection/engine.py`) -/

/-- `DetectionEngine._extract_message_turns`. -/
def extractMessageTurns (text : String) : List (Option String × String) :=
  let messagePairs := extractMessagePairs text
  if messagePairs.length > 1 then messagePairs
  else
    let lines := ((splitOnChar '\n' text.data).map pyStrip).filterMap
      (fun l => if l.isEmpty then none else some (String.mk l))
    if lines.length ≤ 1 then [(none, text)]
    else lines.enum.map (fun p => (some (if p.1 % 2 == 0 then "A" else "B"), p.2))

/-- Joking-marker phrases of `_check_mutuality` (both alternations). -/
def jokingMarkerPhrases : List String :=
  ["just kidding", "just joking", "kidding", "joking", "laughing", "haha", "hehe"]

/-- `DetectionEngine._check_mutuality`: at least two distinct speakers
with a joking marker in the last six turns (each message is re-normalized
and lowered before the check). -/
def checkMutuality (turns : List (Option String × String)) : Bool :=
  if turns.length < 2 then false
  else
    let recentTurns := if turns.length > 6 then turns.drop (turns.length - 6) else turns
    let speakersWithJoking := recentTurns.foldl
      (fun (acc : List String) t =>
        match t.1 with
        | none => acc
        | some speaker =>
          let msgText := strLower (normalizeMessage t.2).normalizedText
          if containsAnyWordPhrase msgText jokingMarkerPhrases && !acc.contains speaker then
            acc ++ [speaker]
          else acc)
      []
    speakersWithJoking.length ≥ 2

/-- Repair/closure marker phrases of `_check_repair_markers` (the three
alternations expanded; `didn'?t` gives both spellings). -/
def repairMarkerPhrases : List String :=
  ["jk", "just kidding", "just joking", "kidding",
   "all good", "no worries", "my bad", "didn't mean it", "didnt mean it",
   "lol jk", "haha jk", "laughing jk"]

/-- `DetectionEngine._check_repair_markers`: a repair marker in one of the
last three turns (again on the re-normalized, lowered message). -/
def checkRepairMarkers (turns : List (Option String × String)) : Bool :=
  if turns.isEmpty then false
  else
    let lastMessages := if turns.length ≥ 3 then turns.drop (turns.length - 3) else turns
    lastMessages.any (fun t =>
      containsAnyWordPhrase (strLower (normalizeMessage t.2).normalizedText)
        repairMarkerPhrases)

/-- Coercive-control description keywords of `_check_hard_blockers`
(substring containment on the lowered pattern description). -/
def coerciveDescKeywords : List String :=
  ["coercive control", "secrecy", "isolation", "proof", "delete", "screenshot"]

/-- Threat/ultimatum phrases of `_check_hard_blockers` (both regexes,
apostrophe options expanded). -/
def hardBlockerThreatPhrases : List String :=
  ["or else", "we're done if", "were done if", "you'll regret it", "youll regret it",
   "don't expect", "dont expect",
   "if you don't", "if you dont", "unless you"]

/-- Severe-insult phrases of `_check_hard_blockers`. -/
def severeInsultPhrases : List String :=
  ["worthless", "kill yourself", "kys", "go die", "stfu", "shut up",
   "nobody likes you", "pathetic"]

/-- Repair phrases of the repeated-insult hard-blocker check. -/
def hardBlockerRepairPhrases : List String :=
  ["jk", "just kidding", "all good", "no worries", "my bad"]

/-- `DetectionEngine._check_hard_blockers`. -/
def checkHardBlockers (normalizedText : String) (matchMap : MatchMap) : Bool :=
  let coercive := ["secrecy", "manipulation"].any (fun category =>
    hasKey matchMap category && !(lookupMatches matchMap category).isEmpty &&
      (lookupMatches matchMap category).any (fun m =>
        coerciveDescKeywords.any (fun kw =>
          containsSub (strLower m.pattern.description) kw)))
  let threats := containsAnyWordPhrase normalizedText hardBlockerThreatPhrases
  let severeInsults := containsAnyWordPhrase normalizedText severeInsultPhrases
  let repeatedInsults :=
    hasKey matchMap "bullying" && !(lookupMatches matchMap "bullying").isEmpty &&
      (lookupMatches matchMap "bullying").length ≥ 2 &&
      !containsAnyWordPhrase normalizedText hardBlockerRepairPhrases
  coercive || threats || severeInsults || repeatedInsults

/-- `DetectionEngine._check_friendly_teasing_context`: hard blockers first
(immediate `False`), then mutuality AND repair over the extracted turns of
the raw text.  (The source also reads `tone_markers` into a local it never
uses.) -/
def checkFriendlyTeasing (nm : NormalizedMessage) (normalizedText : String)
    (matchMap : MatchMap) : Bool :=
  if checkHardBlockers normalizedText matchMap then false
  else
    let turns := extractMessageTurns nm.rawText
    checkMutuality turns && checkRepairMarkers turns

/-- Work-term phrases of `_check_professional_context` (all three regexes
expanded into their literal alternatives). -/
def workTermPhrases : List String :=
  ["bug", "fix", "code", "production", "project", "deadline", "task", "work",
   "job", "client", "customer", "team", "meeting",
   "i'll fix", "i'll get", "i'll handle", "i'll resolve", "i'll address",
   "i'm so sorry", "i apologize", "my apologies", "my mistake", "my fault"]

/-- Personal-attack phrases of `_check_professional_context`
(`you're (so|really|such a) (stupid|idiot|pathetic|ugly|worthless)`
expanded, plus the direct attacks). -/
def personalAttackPhrases : List String :=
  ["you're so stupid", "you're so idiot", "you're so pathetic",
   "you're so ugly", "you're so worthless",
   "you're really stupid", "you're really idiot", "you're really pathetic",
   "you're really ugly", "you're really worthless",
   "you're such a stupid", "you're such a idiot", "you're such a pathetic",
   "you're such a ugly", "you're such a worthless",
   "kill yourself", "kys", "go die", "hate you"]

/-- `DetectionEngine._check_professional_context`. -/
def checkProfessionalContext (normalizedText : String) : Bool :=
  containsAnyWordPhrase normalizedText workTermPhrases &&
    !containsAnyWordPhrase normalizedText personalAttackPhrases

/-! ## Explanation generator (`app/detection/explainer.py`) -/

/-- `EXPLANATIONS`: per-category child-friendly texts, keyed by the
category string (the `str`-mixin enum members hash/compare as their
string values). -/
def categoryExplanationsTable : List (String × String) :=
  [("bullying",
    "Someone is saying mean things to you. This is not okay. You don't deserve to be treated this way. It's important to talk to a trusted person or support service about this."),
   ("manipulation",
    "This person is trying to make you feel like you have to do something you don't want to do. They might be using your friendship or feelings against you. Remember: real friends respect your boundaries."),
   ("pressure",
    "Someone is pushing you to do something quickly or without thinking. It's okay to take your time and say no. You don't have to do anything that makes you uncomfortable."),
   ("secrecy",
    "Someone is asking you to keep secrets from people you trust. This is a warning sign. Safe people don't ask you to keep secrets. It's important to tell a trusted person or support service about this."),
   ("guilt_shifting",
    "This person is trying to make you feel bad or blame you for something. This is not fair. You are not responsible for someone else's actions. Talk to someone you trust about how this makes you feel."),
   ("grooming",
    "This conversation has some concerning patterns. Someone might be trying to build trust in an inappropriate way. This is very serious. Please talk to a trusted person or support service immediately.")]

def lookupExplanation (c : String) : Option String :=
  match categoryExplanationsTable.find? (fun p => p.1 == c) with
  | some p => some p.2
  | none => none

def adviceMessagesGreen : List String :=
  ["No strong patterns of bullying, manipulation, or grooming were detected."]

def adviceMessagesYellow : List String :=
  ["Some patterns of pressure or discomfort were detected.",
   "Consider setting clear boundaries and communicating your concerns directly."]

/-- `ADVICE_MESSAGES_RED`; per the source comment, the first message is
meant to be generated dynamically from the detected categories. -/
def adviceMessagesRed : List String :=
  ["If you feel unsafe, talk to a trusted person or support service immediately."]

/-- Python `str.replace` (replace every occurrence, case-sensitive). -/
def strReplaceAllAux (pat repl : List Char) : Nat → List Char → List Char
  | 0, l => l
  | _ + 1, [] => []
  | fuel + 1, c :: cs =>
    if !pat.isEmpty && pat.isPrefixOf (c :: cs) then
      repl ++ strReplaceAllAux pat repl fuel ((c :: cs).drop pat.length)
    else c :: strReplaceAllAux pat repl fuel cs

def strReplaceAll (s pat repl : String) : String :=
  String.mk (strReplaceAllAux pat.data repl.data s.data.length s.data)

/-- `threat_keywords` of `_has_threat_patterns` (substring containment on
lowered pattern descriptions). -/
def threatKeywords : List String :=
  ["ultimatum", "relationship threat", "threats of withdrawal",
   "or else", "we're done", "i'm done", "it's over"]

/-- Literal alternatives of the threat regex
`\b(or else|we'?re done|i'?m done|it'?s over|...)\b`. -/
def threatLiteralPhrases : List String :=
  ["or else", "we're done", "were done", "i'm done", "im done",
   "it's over", "its over"]

/-- The `.*then\b` tail of the `if you don'?t.*then` alternative: a later
`then` with a word boundary after it, with no newline in between (`.` does
not match `\n` here). -/
def gapThenScan : List Char → Bool
  | [] => false
  | c :: cs =>
    (match ciMatchRest "then".data (c :: cs) with
     | some rest => boundaryAfter rest
     | none => false) ||
    (c != '\n' && gapThenScan cs)

/-- Does the threat regex match starting at this position? -/
def threatMatchAt (prev : Option Char) (l : List Char) : Bool :=
  threatLiteralPhrases.any (fun p => wordPhraseAt p.data prev l) ||
  (boundaryBefore prev &&
    ((match ciMatchRest "if you don't".data l with
      | some rest => gapThenScan rest
      | none => false) ||
     (match ciMatchRest "if you dont".data l with
      | some rest => gapThenScan rest
      | none => false)))

/-- Index of the leftmost threat-regex match (`re.search(...).start()`). -/
def firstThreatPosAux : Nat → Option Char → List Char → Option Nat
  | _, _, [] => none
  | i, prev, c :: cs =>
    if threatMatchAt prev (c :: cs) then some i
    else firstThreatPosAux (i + 1) (some c) cs

def firstThreatPos (s : String) : Option Nat :=
  firstThreatPosAux 0 none s.data

def hasThreatRegexStr (s : String) : Bool :=
  (firstThreatPos s).isSome

/-- `ExplanationGenerator._has_threat_patterns`: threat keywords in a
matched pattern's description, the threat regex on a matched text, or the
threat regex on the full text within 200 characters of some match. -/
def hasThreatPatterns (matchMap : MatchMap) (fullText : String) : Bool :=
  matchMap.any (fun p => p.2.any (fun m =>
    threatKeywords.any (fun kw => containsSub (strLower m.pattern.description) kw) ||
    hasThreatRegexStr (strLower m.matchedText))) ||
  (fullText != "" &&
    (match firstThreatPos (strLower fullText) with
     | some threatPos =>
       matchMap.any (fun p => p.2.any (fun m =>
         ((threatPos : ℤ) - (m.position : ℤ)).natAbs < 200))
     | none => false))

/-- `description.lower()` contains the keyword, over a match list. -/
def anyDescContains (ms : List PatternMatch) (kw : String) : Bool :=
  ms.any (fun m => containsSub (strLower m.pattern.description) kw)

/-- Stable descending sort by score
(`detected_categories.sort(key=..., reverse=True)`). -/
def insertDescending (x : String × ℚ) : List (String × ℚ) → List (String × ℚ)
  | [] => [x]
  | y :: ys => if x.2 > y.2 then x :: y :: ys else y :: insertDescending x ys

def sortByScoreDescending (l : List (String × ℚ)) : List (String × ℚ) :=
  l.foldl (fun acc x => insertDescending x acc) []

/-- `category_names.get(cat, cat)` of `generate_explanation`. -/
def categoryDisplayName (c : String) : String :=
  if c == "secrecy" then "secrecy demands"
  else if c == "guilt_shifting" then "guilt-shifting"
  else if c == "grooming" then "grooming indicators"
  else c

/-- The per-category block of `_describe_behaviors` (the texts appended
for one `(category, score)` entry of `detected_categories`). -/
def behaviorPartsFor (matchMap : MatchMap) (category : String)
    (originalText : String) : List String :=
  let ms := lookupMatches matchMap category
  let matchCount := ms.length
  let hasThreat := hasThreatPatterns [(category, ms)] originalText
  if category == "pressure" then
    let hasEmotionalPressure :=
      anyDescContains ms "emotional pressure" || anyDescContains ms "respond right now"
    let hasTimePressure :=
      anyDescContains ms "urgency" || anyDescContains ms "time ultimatums" ||
        anyDescContains ms "immediate"
    if hasThreat then
      let hasWithdrawalThreats :=
        anyDescContains ms "withdrawal" || anyDescContains ms "threats of withdrawal"
      if hasWithdrawalThreats then ["threats of withdrawal of affection or attention"]
      else ["threats of withdrawal or relationship consequences"]
    else if hasEmotionalPressure then ["emotional pressure to respond right now"]
    else if hasTimePressure && matchCount ≥ 2 then ["repeated demands for immediate response"]
    else if matchCount ≥ 3 then ["repeated demands for immediate action"]
    else ["pressure to comply with demands"]
  else if category == "manipulation" then
    let hasPrivacyInvasion := anyDescContains ms "privacy invasion"
    let hasTrustManipulation :=
      anyDescContains ms "trust manipulation" ||
        ms.any (fun m => containsSub (strLower m.pattern.description) "trust" &&
                         containsSub (strLower m.pattern.description) "withdrawal")
    let hasConditional :=
      anyDescContains ms "conditional" || anyDescContains ms "guilt-inducing" ||
        ms.any (fun m => containsSub (strLower m.pattern.description) "care" &&
                         containsSub (strLower m.pattern.description) "compliance")
    let hasForcedDisclosure := anyDescContains ms "forced emotional disclosure"
    let hasProofRequests :=
      anyDescContains ms "demands for proof" || anyDescContains ms "proof" ||
        anyDescContains ms "screenshot" ||
        ms.any (fun m => containsSub (strLower m.pattern.description) "delete" &&
                         containsSub (strLower m.pattern.description) "prove")
    let hasBoundaryFraming :=
      anyDescContains ms "boundaries" || anyDescContains ms "rejection"
    let hasIsolation := anyDescContains ms "isolation"
    let hasGaslighting :=
      anyDescContains ms "gaslighting" || anyDescContains ms "reality-questioning" ||
        anyDescContains ms "perception-questioning"
    let hasCoercive :=
      anyDescContains ms "coercive control" || anyDescContains ms "removing autonomy" ||
        anyDescContains ms "obedience"
    let hasFear :=
      ms.any (fun m => containsSub (strLower m.pattern.description) "fear" &&
                       containsSub (strLower m.pattern.description) "deliberate")
    (if hasCoercive then ["coercive control and removal of autonomy"] else []) ++
    (if hasFear then ["deliberate use of fear for compliance"] else []) ++
    (if hasProofRequests then
      ["proof-of-compliance requests (e.g., delete messages, send screenshots)"] else []) ++
    (if hasForcedDisclosure && !hasProofRequests then ["forced emotional disclosure"] else []) ++
    (if hasConditional then ["guilt-inducing conditional statements"] else []) ++
    (if hasGaslighting then ["reality-questioning or perception-questioning language"] else []) ++
    (if hasPrivacyInvasion then ["requests that invade privacy"] else []) ++
    (if hasTrustManipulation then ["threats of withdrawal of trust"] else []) ++
    (if hasBoundaryFraming then ["framing boundaries as rejection"] else []) ++
    (if hasIsolation then ["isolation from support"] else []) ++
    (if !(hasPrivacyInvasion || hasTrustManipulation || hasConditional ||
          hasForcedDisclosure || hasProofRequests || hasBoundaryFraming ||
          hasIsolation || hasCoercive || hasFear) then
      if matchCount ≥ 2 then ["repeated attempts to control behavior through emotional pressure"]
      else ["attempts to manipulate through emotional pressure"]
     else [])
  else if category == "guilt_shifting" then
    let hasImportanceQuestioning :=
      anyDescContains ms "importance questioning" || anyDescContains ms "mattered"
    let hasEffortQuestioning :=
      anyDescContains ms "effort questioning" || anyDescContains ms "don't care" ||
        anyDescContains ms "effort comparison"
    let hasResponseTimeQuestioning :=
      anyDescContains ms "response time questioning" ||
        ms.any (fun m => containsSub (strLower m.pattern.description) "cared" &&
                         containsSub (strLower m.pattern.description) "answered")
    let hasConditionalCare := anyDescContains ms "conditional care"
    let hasEmotionalBlame :=
      anyDescContains ms "emotional blame" ||
        ms.any (fun m => containsSub (strLower m.pattern.description) "make me feel" &&
                         containsSub (strLower m.pattern.description) "because")
    let hasDirectGuilt :=
      anyDescContains ms "guilt induction" || anyDescContains ms "direct guilt"
    if hasImportanceQuestioning then
      ["guilt-shifting through questioning your importance or care"]
    else if hasResponseTimeQuestioning then
      ["guilt-shifting through questioning your response time or attention"]
    else if hasConditionalCare then
      ["guilt-shifting through conditional statements about care"]
    else if hasEffortQuestioning then
      ["guilt-shifting through questioning your effort or commitment"]
    else if hasEmotionalBlame then
      ["guilt-shifting through blaming you for their emotions"]
    else if hasDirectGuilt then
      ["direct attempts to make you feel guilty"]
    else if matchCount ≥ 2 then ["repeated guilt induction and blame-shifting"]
    else ["attempts to shift blame or induce guilt"]
  else if category == "bullying" then
    let hasVictimBlaming :=
      anyDescContains ms "victim-blaming" || anyDescContains ms "victim"
    let hasDemeaning :=
      anyDescContains ms "demeaning" || anyDescContains ms "put-down"
    let hasSevere :=
      ms.any (fun m => containsSub (strLower m.pattern.description) "severe" ||
                       m.confidence ≥ 0.9)
    if hasVictimBlaming then ["victim-blaming and dismissive language"]
    else if hasDemeaning then ["demeaning language and put-downs"]
    else if hasSevere then ["severe threats or extreme insults"]
    else ["mean comments or personal attacks"]
  else if category == "secrecy" then
    let hasIsolationSecrecy :=
      anyDescContains ms "isolation" || anyDescContains ms "discouraging"
    let hasProofDestruction :=
      ms.any (fun m => containsSub (strLower m.pattern.description) "delete" &&
                       containsSub (strLower m.pattern.description) "prove")
    let hasPrivacyRedefinition :=
      ms.any (fun m => containsSub (strLower m.pattern.description) "privacy" &&
                       containsSub (strLower m.pattern.description) "secrecy")
    if hasThreat then ["secrecy demands with relationship threats"]
    else if hasProofDestruction then
      ["secrecy demands with proof-of-compliance requests (delete messages)"]
    else if hasIsolationSecrecy then ["secrecy demands and isolation from support"]
    else if hasPrivacyRedefinition then ["redefining privacy as keeping secrets"]
    else ["secrecy demands"]
  else if category == "grooming" then
    ["inappropriate trust-building attempts"]
  else []

/-- `ExplanationGenerator._describe_behaviors`. -/
def describeBehaviors (matchMap : MatchMap) (detectedCategories : List (String × ℚ))
    (originalText : String) : String :=
  let behaviorParts := detectedCategories.foldl
    (fun (acc : List String) p =>
      if p.2 < 0.3 then acc
      else if (lookupMatches matchMap p.1).isEmpty then acc
      else acc ++ behaviorPartsFor matchMap p.1 originalText)
    []
  let behaviorParts := if behaviorParts.length > 4 then behaviorParts.take 4 else behaviorParts
  match behaviorParts with
  | [] => ""
  | [a] => a
  | [a, b] => a ++ " and " ++ b
  | l => String.intercalate ", " l.dropLast ++ ", and " ++ l.getLastD ""

/-- The fixed GREEN text (the two appended sentences joined by `" "`). -/
def neutralGreenText : String :=
  "Analysis checked for patterns of bullying, manipulation, pressure, secrecy demands, guilt-shifting, and grooming indicators. No warning signs detected in this conversation."

/-- `ExplanationGenerator.generate_explanation`. -/
def generateExplanation (riskLevel : RiskLevel) (categoryScores : ScoreMap)
    (matchMap : MatchMap) (overallScore : ℚ) (originalText : String) : String :=
  let hasAnyMatches := !matchMap.isEmpty && matchMap.any (fun p => !p.2.isEmpty)
  let hasMeaningfulScores := categoryScores.any (fun p => p.2 ≥ 0.3)
  if (riskLevel == RiskLevel.green || overallScore < 0.3) &&
      !hasMeaningfulScores && !hasAnyMatches then neutralGreenText
  else if (riskLevel == RiskLevel.green || overallScore < 0.3) &&
      !hasMeaningfulScores then neutralGreenText
  else if !hasAnyMatches && !hasMeaningfulScores then neutralGreenText
  else if riskLevel == RiskLevel.green && hasAnyMatches then neutralGreenText
  else
    let detectedCategories :=
      sortByScoreDescending (categoryScores.filter (fun p => p.2 > 0))
    let part1 : List String :=
      if !detectedCategories.isEmpty then
        let highScoreCats := (detectedCategories.filter (fun p =>
          p.2 ≥ 0.6 && hasKey matchMap p.1 &&
            !(lookupMatches matchMap p.1).isEmpty)).map (fun p => p.1)
        let moderateCats := (detectedCategories.filter (fun p =>
          0.3 ≤ p.2 && p.2 < 0.6 && hasKey matchMap p.1 &&
            !(lookupMatches matchMap p.1).isEmpty)).map (fun p => p.1)
        let allDetected :=
          highScoreCats.map categoryDisplayName ++ moderateCats.map categoryDisplayName
        let uniqueDetected := dedupKeepFirst allDetected
        if !uniqueDetected.isEmpty then
          let groomingScore :=
            match detectedCategories.find? (fun p => p.1 == "grooming") with
            | some p => p.2
            | none => 0
          let primarySecondary :=
            if uniqueDetected.headD "" == "grooming indicators" && groomingScore < 0.6 then
              match uniqueDetected.tail with
              | s :: rest => (some s, rest)
              | [] => ((none : Option String), ([] : List String))
            else (some (uniqueDetected.headD ""), uniqueDetected.tail)
          let filteredSecondary := primarySecondary.2.filter (fun s =>
            if s == "grooming indicators" then decide (groomingScore ≥ 0.6) else true)
          match primarySecondary.1 with
          | some primary =>
            if !filteredSecondary.isEmpty then
              ["Analysis detected patterns of " ++ primary ++
                ", with secondary patterns of " ++
                String.intercalate ", " filteredSecondary ++ "."]
            else ["Analysis detected patterns of " ++ primary ++ "."]
          | none => []
        else []
      else []
    let guiltShiftingScore := lookupScore categoryScores "guilt_shifting"
    let guiltMatches := lookupMatches matchMap "guilt_shifting"
    let hasGuiltShifting := guiltShiftingScore ≥ 0.18 || !guiltMatches.isEmpty
    let part2 : List String :=
      if !detectedCategories.isEmpty then
        let topCategory := (detectedCategories.headD ("", 0)).1
        let topScore := (detectedCategories.headD ("", 0)).2
        let chain1 : List String :=
          if topCategory == "pressure" && topScore ≥ 0.6 then
            let pressureMatches := lookupMatches matchMap "pressure"
            let hasThreat := hasThreatPatterns matchMap originalText
            let hasStrongCommands :=
              anyDescContains pressureMatches "strong pressure" ||
                anyDescContains pressureMatches "commands"
            let hasEmotionalPressure :=
              anyDescContains pressureMatches "emotional pressure" ||
                anyDescContains pressureMatches "respond right now"
            if hasThreat then
              let hasWithdrawal := anyDescContains pressureMatches "threats of withdrawal"
              let hasBlackmail :=
                anyDescContains pressureMatches "emotional blackmail" ||
                  anyDescContains pressureMatches "friendship threat"
              if hasBlackmail then
                ["This conversation shows emotional blackmail with threats to end the friendship if demands are not met immediately."]
              else if hasWithdrawal then
                ["This conversation shows threats of withdrawal of affection or attention if demands are not met."]
              else
                ["This conversation shows pressure with threats of consequences if demands are not met."]
            else if hasStrongCommands then
              ["This conversation shows strong pressure commands demanding immediate compliance."]
            else if hasEmotionalPressure then
              ["This conversation shows emotional pressure to respond immediately or disclose feelings."]
            else if hasGuiltShifting then
              ["This conversation shows pressure or guilt-making language."]
            else
              ["This conversation shows pressure to act quickly or comply with demands."]
          else if topCategory == "bullying" && topScore ≥ 0.6 then
            let bullyingMatches := lookupMatches matchMap "bullying"
            let hasVictimBlaming :=
              anyDescContains bullyingMatches "victim-blaming" ||
                anyDescContains bullyingMatches "victim"
            let hasDemeaning :=
              anyDescContains bullyingMatches "demeaning" ||
                anyDescContains bullyingMatches "put-down"
            let hasSevere :=
              bullyingMatches.any (fun m =>
                containsSub (strLower m.pattern.description) "severe" ||
                  m.confidence ≥ 0.9)
            if hasVictimBlaming && hasDemeaning then
              ["This conversation contains direct insults, demeaning language, and victim-blaming statements."]
            else if hasVictimBlaming then
              ["This conversation contains victim-blaming statements that shift responsibility and dismiss your concerns."]
            else if hasDemeaning then
              ["This conversation contains demeaning language and put-downs designed to hurt and belittle."]
            else if hasSevere then
              ["This conversation contains severe threats or extreme insults that are clearly abusive."]
            else
              ["This conversation contains mean comments and personal attacks."]
          else if topCategory == "manipulation" && topScore ≥ 0.6 then
            let manipMatches := lookupMatches matchMap "manipulation"
            let hasCoercive :=
              anyDescContains manipMatches "coercive control" ||
                anyDescContains manipMatches "removing autonomy" ||
                anyDescContains manipMatches "obedience"
            let hasFear :=
              anyDescContains manipMatches "fear" ||
                anyDescContains manipMatches "deliberate use of fear"
            let hasPrivacy := anyDescContains manipMatches "privacy invasion"
            let hasConditional :=
              anyDescContains manipMatches "conditional" ||
                anyDescContains manipMatches "guilt-inducing"
            let hasForcedDisclosure :=
              anyDescContains manipMatches "forced emotional disclosure"
            let hasProofRequests :=
              anyDescContains manipMatches "demands for proof" ||
                anyDescContains manipMatches "proof" ||
                anyDescContains manipMatches "screenshot" ||
                manipMatches.any (fun m =>
                  containsSub (strLower m.pattern.description) "delete" &&
                    containsSub (strLower m.pattern.description) "prove")
            let hasBoundary := anyDescContains manipMatches "boundaries"
            let hasGaslighting :=
              anyDescContains manipMatches "gaslighting" ||
                anyDescContains manipMatches "reality-questioning" ||
                anyDescContains manipMatches "perception-questioning"
            if hasCoercive && hasFear then
              ["This person is using coercive control and deliberate fear tactics to force compliance. This is a serious pattern of abuse that requires immediate attention."]
            else if hasCoercive then
              ["This person is using coercive control to remove your autonomy and demand obedience. This is a serious pattern of controlling behavior."]
            else if hasFear then
              ["This person is deliberately using fear to make you comply. This is a serious warning sign."]
            else if hasProofRequests then
              ["This person is making proof-of-compliance requests (such as deleting messages or sending screenshots) to control your behavior and isolate you from support."]
            else if hasForcedDisclosure && hasConditional then
              ["This person is using guilt-inducing conditional statements and forcing emotional disclosure to control your behavior."]
            else if hasConditional && hasGaslighting then
              ["This person is using guilt-inducing conditional statements and reality-questioning language to control your behavior."]
            else if hasConditional then
              ["This person is using guilt-inducing conditional statements linking care or trust to compliance."]
            else if hasForcedDisclosure then
              ["This person is forcing emotional disclosure to control your behavior."]
            else if hasGaslighting then
              ["This person is using reality-questioning or perception-questioning language to undermine your perspective."]
            else if hasPrivacy then
              ["This person is using emotional pressure and requests that invade privacy to control your behavior."]
            else if hasBoundary then
              ["This person is framing boundaries as rejection or lack of care."]
            else
              ["This person is using emotional pressure to control your behavior."]
          else []
        let chain2 : List String :=
          if topCategory == "guilt_shifting" && topScore ≥ 0.5 then
            let hasResponseTime := anyDescContains guiltMatches "response time questioning"
            let hasConditionalCare := anyDescContains guiltMatches "conditional care"
            let hasEmotionalBlame := anyDescContains guiltMatches "emotional blame"
            let hasEffortComparison := anyDescContains guiltMatches "effort comparison"
            let hasDirectGuilt :=
              anyDescContains guiltMatches "guilt induction" ||
                anyDescContains guiltMatches "direct guilt"
            if hasResponseTime then
              ["This conversation includes guilt-shifting through questioning your response time or attention (e.g., 'If you cared, you'd have answered faster')."]
            else if hasConditionalCare then
              ["This conversation includes guilt-shifting through conditional statements about care (e.g., 'If you cared about me, you would...')."]
            else if hasEmotionalBlame then
              ["This conversation includes guilt-shifting through blaming you for the other person's emotions (e.g., 'You make me feel bad because you didn't...')."]
            else if hasEffortComparison then
              ["This conversation includes guilt-shifting through comparing efforts (e.g., 'I'm the only one trying')."]
            else if hasDirectGuilt then
              ["This conversation includes direct attempts to make you feel guilty (e.g., 'Maybe you should feel bad')."]
            else
              ["This conversation includes attempts to make you feel responsible for the other person's actions or emotions."]
          else if hasGuiltShifting && topCategory != "guilt_shifting" then
            if !guiltMatches.isEmpty then
              let hasConditional :=
                anyDescContains guiltMatches "conditional care" ||
                  anyDescContains guiltMatches "response time questioning"
              if hasConditional then
                ["This conversation includes guilt-inducing conditional statements (e.g., 'if you cared...') that were detected."]
              else
                ["This conversation includes guilt-shifting patterns that were detected."]
            else []
          else if topCategory == "secrecy" && topScore ≥ 0.6 then
            let secrecyMatches := lookupMatches matchMap "secrecy"
            let hasThreat := hasThreatPatterns matchMap originalText
            let hasIsolation :=
              anyDescContains secrecyMatches "isolation" ||
                anyDescContains secrecyMatches "discouraging"
            let hasProofDestruction :=
              secrecyMatches.any (fun m =>
                containsSub (strLower m.pattern.description) "delete" &&
                  containsSub (strLower m.pattern.description) "prove")
            let hasPrivacyRedef :=
              secrecyMatches.any (fun m =>
                containsSub (strLower m.pattern.description) "privacy" &&
                  containsSub (strLower m.pattern.description) "secrecy")
            if hasProofDestruction then
              ["This conversation includes secrecy demands with proof-of-compliance requests (such as deleting messages) and attempts to isolate you from support."]
            else if hasIsolation then
              ["This conversation includes secrecy demands and attempts to isolate you from support."]
            else if hasThreat then
              ["This conversation includes secrecy demands with threats to end the relationship if you tell anyone."]
            else if hasPrivacyRedef then
              ["This conversation redefines privacy as keeping secrets from trusted people."]
            else
              ["This conversation includes secrecy demands designed to isolate you from support."]
          else if riskLevel == RiskLevel.yellow then
            match lookupExplanation topCategory with
            | some e =>
              [strReplaceAll (strReplaceAll e "trusted adult" "someone you trust") "kids" "people"]
            | none => []
          else if riskLevel == RiskLevel.red then
            let hasThreat := hasThreatPatterns matchMap ""
            if topCategory == "secrecy" then
              if hasThreat then
                ["This conversation includes secrecy demands with threats to end the relationship if you tell anyone."]
              else
                match lookupExplanation topCategory with
                | some e => [e]
                | none => []
            else
              match lookupExplanation topCategory with
              | some e => [e]
              | none => []
          else []
        chain1 ++ chain2
      else []
    let part3 : List String :=
      if !matchMap.isEmpty then
        let behaviorDescriptions := describeBehaviors matchMap detectedCategories originalText
        if behaviorDescriptions != "" then
          ["\n\nObserved behaviors: " ++ behaviorDescriptions]
        else []
      else []
    let part4 : List String :=
      if riskLevel == RiskLevel.red then
        ["\n\n⚠️ This is a high-risk situation requiring immediate attention. Consider getting help from a trusted person or support service."]
      else if riskLevel == RiskLevel.yellow then
        let strongPatterns := (detectedCategories.filter (fun p => p.2 ≥ 0.75)).length
        if strongPatterns ≥ 2 then
          ["\n\n⚠️ Multiple concerning patterns detected. Pay close attention to how this conversation makes you feel. Consider setting clear boundaries or seeking support."]
        else
          ["\n\n⚠️ Moderate concern: pay attention to how this conversation makes you feel."]
      else []
    String.intercalate " " (part1 ++ part2 ++ part3 ++ part4)

/-- `ExplanationGenerator.get_help_advice`.  `category_scores` and
`matches` default to `None` in the source; Python's truthiness test
`if category_scores and matches:` fails for `None` and for empty dicts.
(The `category_names` dict built inside that branch is never read and is
omitted.) -/
def getHelpAdvice (riskLevel : RiskLevel) (overallScore : ℚ)
    (categoryScores : Option ScoreMap) (matchMap : Option MatchMap) : List String :=
  if riskLevel == RiskLevel.red || overallScore ≥ 0.8 then
    match categoryScores, matchMap with
    | some cs, some m =>
      if !cs.isEmpty && !m.isEmpty then
        let dominantCategories := (cs.filter (fun p => p.2 ≥ 0.6)).map (fun p => p.1)
        let hasSecrecy :=
          dominantCategories.contains "secrecy" || lookupScore cs "secrecy" ≥ 0.6
        let hasIsolation := m.any (fun p => p.2.any (fun mm =>
          containsSub (strLower mm.pattern.description) "isolation" ||
            containsSub (strLower mm.pattern.description) "discouraging"))
        let hasProofRequests := m.any (fun p => p.2.any (fun mm =>
          containsSub (strLower mm.pattern.description) "proof" ||
            containsSub (strLower mm.pattern.description) "delete"))
        let hasCoercive :=
          dominantCategories.contains "manipulation" &&
            lookupScore cs "manipulation" ≥ 0.7
        let detectedTerms :=
          (if hasCoercive then ["coercive control"] else []) ++
          (if hasSecrecy then ["secrecy demands"] else []) ++
          (if hasIsolation then ["isolation from support"] else []) ++
          (if hasProofRequests then ["proof-of-compliance requests"] else []) ++
          (if dominantCategories.contains "bullying" then ["bullying"] else []) ++
          (if dominantCategories.contains "grooming" &&
              lookupScore cs "grooming" ≥ 0.6 then ["grooming indicators"] else [])
        let message :=
          if !detectedTerms.isEmpty then
            "Serious warning signs detected: " ++
              String.intercalate ", " detectedTerms ++ "."
          else "Serious warning signs detected: manipulation or pressure patterns."
        message :: adviceMessagesRed
      else adviceMessagesRed
    | _, _ => adviceMessagesRed
  else if riskLevel == RiskLevel.yellow || overallScore ≥ 0.3 then adviceMessagesYellow
  else adviceMessagesGreen

/-! ## Detection engine (`app/detection/engine.py`) -/

/-- `DetectionResult`.  The Python attribute `matches` is called
`matchMap` here (`matches` is reserved syntax in Lean). -/
structure DetectionResult where
  riskLevel : RiskLevel
  overallScore : ℚ
  categoryScores : ScoreMap
  explanation : String
  advice : List String
  matchMap : MatchMap
  mlAvailable : Bool
  deriving Repr, DecidableEq

/-- Source lines 123–144 of `DetectionEngine.analyze`: the banter
down-weighting of the rules-stage bullying score (×0.35, and only when no
secrecy/manipulation matches are present). -/
def banterRulesAdjust (isFriendlyTeasing : Bool) (rulesScores : ScoreMap)
    (matchMap : MatchMap) : ScoreMap :=
  if isFriendlyTeasing then
    let hasCoerciveControl := ["secrecy", "manipulation"].any (fun c =>
      hasKey matchMap c && !(lookupMatches matchMap c).isEmpty)
    if !hasCoerciveControl then
      if hasScoreKey rulesScores "bullying" &&
          lookupScore rulesScores "bullying" > 0 then
        setScore rulesScores "bullying" (lookupScore rulesScores "bullying" * 0.35)
      else rulesScores
    else rulesScores
  else rulesScores

/-- Source lines 146–156 (and again 208–212): the professional-context
×0.4 reduction of the pressure and manipulation scores. -/
def professionalAdjust (isProfessionalContext : Bool) (scores : ScoreMap) : ScoreMap :=
  if isProfessionalContext then
    ["pressure", "manipulation"].foldl (fun acc c =>
      if hasScoreKey acc c && lookupScore acc c > 0 then
        setScore acc c (lookupScore acc c * 0.4)
      else acc) scores
  else scores

/-- Source lines 166–187: the per-sentence ML scores aggregated by
category maximum, in `RiskCategory` order.  Empty when ML is unavailable,
when classification raised (`mlOk = false`), or when there are no
sentence scores. -/
def mlScoresFrom (mlAvailable mlOk : Bool) (mlSentenceScores : List ScoreMap) :
    ScoreMap :=
  if mlAvailable && mlOk && !mlSentenceScores.isEmpty then
    riskCategories.foldl (fun acc c =>
      let maxScore := pyMax (mlSentenceScores.map (fun s => lookupScore s c))
      if maxScore > 0 then acc ++ [(c, maxScore)] else acc) []
  else []

/-- Source lines 200–206: the final banter reduction, multiplying every
positive category score by 0.3. -/
def banterFinalAdjust (isFriendlyTeasing : Bool) (scores : ScoreMap) : ScoreMap :=
  if isFriendlyTeasing then
    scores.map (fun p => (p.1, if p.2 > 0 then p.2 * 0.3 else p.2))
  else scores

/-- Source lines 123–212 of `DetectionEngine.analyze`: the context-based
score adjustments, ML aggregation, and final context reductions, as a
function of the two context-classifier booleans computed just above them
in the source.  `mlOk = false` models the caught exception in the ML
classification `try` block (`ml_scores` then stays empty). -/
def scoreAdjustPipeline (isFriendlyTeasing isProfessionalContext : Bool)
    (rulesScores : ScoreMap) (matchMap : MatchMap)
    (mlSentenceScores : List ScoreMap) (mlAvailable mlOk : Bool)
    (rulesWeight mlWeight : ℚ) : ScoreMap :=
  let rulesScores2 :=
    professionalAdjust isProfessionalContext
      (banterRulesAdjust isFriendlyTeasing rulesScores matchMap)
  let mlScores := mlScoresFrom mlAvailable mlOk mlSentenceScores
  let categoryScores :=
    if !mlScores.isEmpty && mlAvailable then
      aggregateCategoryScores (mkScoreAggregator rulesWeight mlWeight)
        rulesScores2 mlScores
    else rulesScores2
  professionalAdjust isProfessionalContext
    (banterFinalAdjust isFriendlyTeasing categoryScores)

/-- The normalized text `analyze` works on: slang normalization followed
by `normalize_text` (source lines 102–108). -/
def engineNormalizedText (text : String) : String :=
  normalizeText (normalizeMessage text).normalizedText

/-- The `matches` of `rules_result` (source lines 111–113). -/
def engineMatchMap (detected : MatchMap) (text : String) : MatchMap :=
  (ruleAnalyze detected (engineNormalizedText text)).1

/-- `is_friendly_teasing` as computed by `analyze` (source line 118). -/
def engineIsFriendlyTeasing (detected : MatchMap) (text : String) : Bool :=
  checkFriendlyTeasing (normalizeMessage text) (engineNormalizedText text)
    (engineMatchMap detected text)

/-- The final `category_scores` of `analyze` (source lines 123–212). -/
def engineCategoryScores (detected : MatchMap) (mlSentenceScores : List ScoreMap)
    (mlAvailable mlOk : Bool) (text : String) (rulesWeight mlWeight : ℚ) : ScoreMap :=
  scoreAdjustPipeline (engineIsFriendlyTeasing detected text)
    (checkProfessionalContext (engineNormalizedText text))
    (ruleAnalyze detected (engineNormalizedText text)).2
    (engineMatchMap detected text) mlSentenceScores mlAvailable mlOk
    rulesWeight mlWeight

/-- The risk-level / overall-score decision of `analyze` (source lines
217–235): the two-part evidence gate, then the thresholds. -/
def evidenceGate (allScoresBelowThreshold hasAnyMatches : Bool) (overallScore : ℚ) :
    RiskLevel × ℚ :=
  if allScoresBelowThreshold && !hasAnyMatches then (RiskLevel.green, 0)
  else if !hasAnyMatches then (RiskLevel.green, 0)
  else (determineRiskLevel overallScore, overallScore)

def engineRiskOverall (detected : MatchMap) (mlSentenceScores : List ScoreMap)
    (mlAvailable mlOk : Bool) (text : String) (rulesWeight mlWeight : ℚ) :
    RiskLevel × ℚ :=
  let categoryScores :=
    engineCategoryScores detected mlSentenceScores mlAvailable mlOk text
      rulesWeight mlWeight
  let matchMap := engineMatchMap detected text
  evidenceGate
    (if !categoryScores.isEmpty then categoryScores.all (fun p => p.2 < 0.3) else true)
    (!matchMap.isEmpty && matchMap.any (fun p => !p.2.isEmpty))
    (getOverallRiskScore categoryScores)

/-- `DetectionEngine.analyze`.  `detected` is the category → matches map
produced by `RuleEngine.detect` on the normalized text (driven by the
external `rules_config.yaml`, spec §6); `mlSentenceScores` is the output
of `classifier.classify_batch(sentences)`; `mlAvailable` covers
`self.ml_available and self.classifier`; the weights are the constructor
defaults `rules_weight=0.6, ml_weight=0.4`. -/
def engineAnalyze (detected : MatchMap) (mlSentenceScores : List ScoreMap)
    (mlAvailable mlOk : Bool) (text : String)
    (rulesWeight : ℚ := 0.6) (mlWeight : ℚ := 0.4) : DetectionResult :=
  let categoryScores :=
    engineCategoryScores detected mlSentenceScores mlAvailable mlOk text
      rulesWeight mlWeight
  let riskOverall :=
    engineRiskOverall detected mlSentenceScores mlAvailable mlOk text
      rulesWeight mlWeight
  { riskLevel := riskOverall.1
    overallScore := riskOverall.2
    categoryScores := categoryScores
    explanation :=
      generateExplanation riskOverall.1 categoryScores
        (engineMatchMap detected text) riskOverall.2 text
    advice := getHelpAdvice riskOverall.1 riskOverall.2 none none
    matchMap := engineMatchMap detected text
    mlAvailable := mlAvailable }

/-! ## Concrete fixtures used by witnesses and counterexamples

The pattern registry comes from the external `rules_config.yaml`; these
fixtures stand for entries such a configuration provides and for the
`PatternMatch` values `RuleEngine.detect` builds from them. -/

def cexPressurePattern : Pattern :=
  { pattern := "\\b(right now)\\b", confidence := 0.5,
    description := "time urgency", category := "pressure" }

def cexPressureMatch : PatternMatch :=
  { pattern := cexPressurePattern, matchedText := "right now",
    position := 20, confidence := 0.5 }

/-- A pressure match whose matched text carries an ultimatum phrase. -/
def cexUltimatumMatch : PatternMatch :=
  { pattern := cexPressurePattern, matchedText := "we're done",
    position := 3, confidence := 0.5 }

def cexStrongPattern : Pattern :=
  { pattern := "\\b(answer right now)\\b", confidence := 0.9,
    description := "strong pressure commands", category := "pressure" }

def cexStrongMatch : PatternMatch :=
  { pattern := cexStrongPattern, matchedText := "answer right now",
    position := 0, confidence := 0.9 }

/-- Banter conversation: mutual joking with a closing repair marker, and
one pressure match from detection. -/
def banterText : String := "A: haha answer me right now\nB: haha ok jk\nA: all good"

def banterDetected : MatchMap := [("pressure", [cexPressureMatch])]

/-- Conversation with a hard blocker (`or else`) plus joking markers. -/
def blockerText : String := "A: haha do it or else\nB: haha jk"

/-! ## Lemmas about the embedded dictionary operations -/

theorem lookupScore_setScore_ne (m : ScoreMap) (k c : String) (v : ℚ) (h : c ≠ k) :
    lookupScore (setScore m k v) c = lookupScore m c := by
  have hkc : ¬ (k = c) := fun hh => h hh.symm
  induction m with
  | nil => simp [setScore, lookupScore, hkc]
  | cons p rest ih =>
    by_cases hp : p.1 = k
    · simp [setScore, lookupScore, hp, hkc, ih]
    · by_cases hc : p.1 = c
      · simp [setScore, lookupScore, hp, hc, h]
      · simp [setScore, lookupScore, hp, hc, ih]

theorem lookupMatches_setMatches_ne (m : MatchMap) (k c : String)
    (v : List PatternMatch) (h : c ≠ k) :
    lookupMatches (setMatches m k v) c = lookupMatches m c := by
  have hkc : ¬ (k = c) := fun hh => h hh.symm
  induction m with
  | nil => simp [setMatches, lookupMatches, hkc]
  | cons p rest ih =>
    by_cases hp : p.1 = k
    · simp [setMatches, lookupMatches, hp, hkc, ih]
    · by_cases hc : p.1 = c
      · simp [setMatches, lookupMatches, hp, hc, h]
      · simp [setMatches, lookupMatches, hp, hc, ih]

theorem lookupMatches_setMatches_self (m : MatchMap) (k : String)
    (v : List PatternMatch) :
    lookupMatches (setMatches m k v) k = v := by
  induction m with
  | nil => simp [setMatches, lookupMatches]
  | cons p rest ih =>
    by_cases hp : p.1 = k
    · simp [setMatches, lookupMatches, hp]
    · simp [setMatches, lookupMatches, hp, ih]

theorem hasKey_setMatches_self (m : MatchMap) (k : String) (v : List PatternMatch) :
    hasKey (setMatches m k v) k = true := by
  induction m with
  | nil => simp [setMatches, hasKey]
  | cons p rest ih =>
    by_cases hp : p.1 = k
    · simp [setMatches, hasKey, hp]
    · simp only [hasKey] at ih
      simp [setMatches, hasKey, hp, ih]

/-- Scoring after suppression: looking up a category in the rebuilt score
dict gives the category score of its (possibly rebuilt) match list. -/
theorem lookupScore_scoresOf (m : MatchMap) (c : String) :
    lookupScore (m.map (fun p => (p.1, getCategoryScore p.2))) c =
      getCategoryScore (lookupMatches m c) := by
  induction m with
  | nil => simp [lookupScore, lookupMatches, getCategoryScore]
  | cons p rest ih =>
    by_cases hc : p.1 = c
    · simp [lookupScore, lookupMatches, hc]
    · simp [lookupScore, lookupMatches, hc, ih]

/-- The final banter reduction (`for category in category_scores: ... * 0.3`)
acts entry-wise on lookups. -/
theorem lookupScore_banterReduction (m : ScoreMap) (c : String) :
    lookupScore (m.map (fun p => (p.1, if p.2 > 0 then p.2 * 0.3 else p.2))) c =
      (if lookupScore m c > 0 then lookupScore m c * 0.3 else lookupScore m c) := by
  induction m with
  | nil => simp [lookupScore]
  | cons p rest ih =>
    by_cases hc : p.1 = c
    · simp [lookupScore, hc]
    · simp [lookupScore, hc, ih]

theorem engineAnalyze_matchMap (d : MatchMap) (s : List ScoreMap) (a o : Bool)
    (t : String) :
    (engineAnalyze d s a o t).matchMap = engineMatchMap d t := by
  simp only [engineAnalyze]

theorem engineAnalyze_riskLevel (d : MatchMap) (s : List ScoreMap) (a o : Bool)
    (t : String) :
    (engineAnalyze d s a o t).riskLevel = (engineRiskOverall d s a o t 0.6 0.4).1 := by
  simp only [engineAnalyze]

theorem engineAnalyze_overallScore (d : MatchMap) (s : List ScoreMap) (a o : Bool)
    (t : String) :
    (engineAnalyze d s a o t).overallScore =
      (engineRiskOverall d s a o t 0.6 0.4).2 := by
  simp only [engineAnalyze]

theorem engineAnalyze_categoryScores (d : MatchMap) (s : List ScoreMap) (a o : Bool)
    (t : String) :
    (engineAnalyze d s a o t).categoryScores =
      engineCategoryScores d s a o t 0.6 0.4 := by
  simp only [engineAnalyze]

theorem engineAnalyze_advice (d : MatchMap) (s : List ScoreMap) (a o : Bool)
    (t : String) :
    (engineAnalyze d s a o t).advice =
      getHelpAdvice (engineRiskOverall d s a o t 0.6 0.4).1
        (engineRiskOverall d s a o t 0.6 0.4).2 none none := by
  simp only [engineAnalyze]

theorem engineAnalyze_explanation (d : MatchMap) (s : List ScoreMap) (a o : Bool)
    (t : String) :
    (engineAnalyze d s a o t).explanation =
      generateExplanation (engineRiskOverall d s a o t 0.6 0.4).1
        (engineCategoryScores d s a o t 0.6 0.4)
        (engineMatchMap d t) (engineRiskOverall d s a o t 0.6 0.4).2 t := by
  simp only [engineAnalyze]

/-! ## C4 — overall risk score formula -/

/-- **C4** — The overall risk score function satisfies: empty category
score map returns 0; if the maximum category score is ≥ 0.8 it is returned
unchanged; otherwise with n = number of categories and avg = mean score,
for n ≥ 3 the result is min(0.55·max + 0.35·avg + min((n−2)·0.12, 0.25), 1),
for n = 2 it is min(0.65·max + 0.25·avg + 0.10, 1), and for n = 1 it is
the single score unchanged. -/
theorem overall_risk_score_formula (cs : ScoreMap) :
    (cs = [] → getOverallRiskScore cs = 0) ∧
    (cs ≠ [] → pyMax (cs.map (fun p => p.2)) ≥ 0.8 →
      getOverallRiskScore cs = pyMax (cs.map (fun p => p.2))) ∧
    (cs ≠ [] → pyMax (cs.map (fun p => p.2)) < 0.8 → cs.length ≥ 3 →
      getOverallRiskScore cs =
        min (0.55 * pyMax (cs.map (fun p => p.2)) +
             0.35 * ((cs.map (fun p => p.2)).sum / (cs.length : ℚ)) +
             min (((cs.length : ℚ) - 2) * 0.12) 0.25) 1) ∧
    (cs ≠ [] → pyMax (cs.map (fun p => p.2)) < 0.8 → cs.length = 2 →
      getOverallRiskScore cs =
        min (0.65 * pyMax (cs.map (fun p => p.2)) +
             0.25 * ((cs.map (fun p => p.2)).sum / (cs.length : ℚ)) + 0.1) 1) ∧
    (cs ≠ [] → pyMax (cs.map (fun p => p.2)) < 0.8 → cs.length = 1 →
      getOverallRiskScore cs = pyMax (cs.map (fun p => p.2))) := by
  refine ⟨fun h => by simp [getOverallRiskScore, h], ?_, ?_, ?_, ?_⟩
  · intro hne hmax
    rw [getOverallRiskScore, if_neg (by simpa [List.isEmpty_iff] using hne)]
    rw [if_pos hmax]
  · intro hne hmax hn
    rw [getOverallRiskScore, if_neg (by simpa [List.isEmpty_iff] using hne)]
    rw [if_neg (by exact not_le.mpr hmax)]
    rw [if_pos (by simpa using hn)]
    simp only [List.length_map]
    congr 1
    ring
  · intro hne hmax hn
    rw [getOverallRiskScore, if_neg (by simpa [List.isEmpty_iff] using hne)]
    rw [if_neg (by exact not_le.mpr hmax)]
    rw [if_neg (by simp [hn]), if_pos (by simp [hn])]
    simp only [List.length_map]
    congr 1
    ring
  · intro hne hmax hn
    rw [getOverallRiskScore, if_neg (by simpa [List.isEmpty_iff] using hne)]
    rw [if_neg (by exact not_le.mpr hmax)]
    rw [if_neg (by simp [hn]), if_neg (by simp [hn])]

/-- Witness for C4 at concrete three-, two- and one-category maps. -/
theorem overall_risk_score_formula_witness :
    getOverallRiskScore [("secrecy", 0.6), ("pressure", 0.5), ("bullying", 0.4)] = 0.625 ∧
    getOverallRiskScore [("secrecy", 0.6), ("pressure", 0.4)] = 0.615 ∧
    getOverallRiskScore [("secrecy", 0.9)] = 0.9 := by
  refine ⟨?_, ?_, ?_⟩
  · have h := (overall_risk_score_formula
      [("secrecy", 0.6), ("pressure", 0.5), ("bullying", 0.4)]).2.2.1
      (by decide) (by with_unfolding_all decide) (by decide)
    rw [h]; with_unfolding_all decide
  · have h := (overall_risk_score_formula
      [("secrecy", 0.6), ("pressure", 0.4)]).2.2.2.1
      (by decide) (by with_unfolding_all decide) (by decide)
    rw [h]; with_unfolding_all decide
  · have h := (overall_risk_score_formula [("secrecy", 0.9)]).2.1
      (by decide) (by with_unfolding_all decide)
    rw [h]; with_unfolding_all decide

/-! ## C6 — per-category score formula -/

/-- The match-count boost of `get_category_score` as a function of the
number of matches (the claim's `count_boost`). -/
def countBoost (n : ℕ) : ℚ :=
  if n ≥ 3 then min (((n : ℚ) - 2) * 0.05) 0.2
  else if n ≥ 2 then 0.05
  else 0

theorem countBoost_nonneg (n : ℕ) : 0 ≤ countBoost n := by
  unfold countBoost
  split
  · rename_i h3
    have h : (3 : ℚ) ≤ (n : ℚ) := by exact_mod_cast h3
    refine le_min (by nlinarith) (by norm_num)
  · split <;> norm_num

theorem countBoost_mono (n : ℕ) : countBoost n ≤ countBoost (n + 1) := by
  by_cases h3 : 3 ≤ n
  · unfold countBoost
    rw [if_pos h3, if_pos (by omega)]
    refine min_le_min ?_ le_rfl
    have h : (n : ℚ) ≤ ((n + 1 : ℕ) : ℚ) := by push_cast; linarith
    nlinarith
  · by_cases h2 : 2 ≤ n
    · have hn : n = 2 := by omega
      subst hn
      unfold countBoost
      norm_num
    · unfold countBoost
      rw [if_neg h3, if_neg h2]
      exact countBoost_nonneg (n + 1)

theorem countBoost_cap (n : ℕ) : countBoost n ≤ 0.2 := by
  unfold countBoost
  split
  · exact min_le_right _ _
  · split <;> norm_num

theorem countBoost_pos (n : ℕ) (h : 2 ≤ n) : 0 < countBoost n := by
  unfold countBoost
  by_cases h3 : 3 ≤ n
  · rw [if_pos h3]
    have hq : (3 : ℚ) ≤ (n : ℚ) := by exact_mod_cast h3
    refine lt_min (by nlinarith) (by norm_num)
  · rw [if_neg h3, if_pos h]
    norm_num

/-- **C6** — For every non-empty list of matches in a category, the
category score equals min(max confidence + count_boost, 1.0), where
count_boost is 0 for exactly one match, is monotone in the match count,
positive from two matches on, and capped at 0.2; the empty list scores 0. -/
theorem category_score_formula (ms : List PatternMatch) :
    (ms = [] → getCategoryScore ms = 0) ∧
    (ms ≠ [] → getCategoryScore ms =
      min (pyMax (ms.map (fun m => m.confidence)) + countBoost ms.length) 1) ∧
    countBoost 1 = 0 ∧
    (∀ n, countBoost n ≤ countBoost (n + 1)) ∧
    (∀ n, countBoost n ≤ 0.2) ∧
    (∀ n, 2 ≤ n → 0 < countBoost n) := by
  refine ⟨fun h => by simp [getCategoryScore, h], ?_,
    by norm_num [countBoost], countBoost_mono, countBoost_cap, countBoost_pos⟩
  intro hne
  have hni : ¬ (ms.isEmpty = true) := by simpa [List.isEmpty_iff] using hne
  simp only [getCategoryScore, countBoost]
  rw [if_neg hni]

/-- Witness for C6 at concrete one- and two-match lists. -/
theorem category_score_formula_witness :
    getCategoryScore [cexPressureMatch] = 0.5 ∧
    getCategoryScore [cexPressureMatch, cexPressureMatch] = 0.55 := by
  constructor
  · have h := (category_score_formula [cexPressureMatch]).2.1 (by decide)
    rw [h]; with_unfolding_all decide
  · have h := (category_score_formula [cexPressureMatch, cexPressureMatch]).2.1
      (by decide)
    rw [h]; with_unfolding_all decide

/-! ## C3 / C10 — the "no pressure" suppression step -/

theorem lookupMatches_eq_nil_of_hasKey_false (m : MatchMap) (k : String)
    (h : hasKey m k = false) : lookupMatches m k = [] := by
  induction m with
  | nil => simp [lookupMatches]
  | cons p rest ih =>
    simp only [hasKey, List.any_cons, Bool.or_eq_false_iff] at h
    simp only [hasKey] at ih
    simp [lookupMatches, h.1, ih h.2]

theorem hasKey_of_lookupMatches_ne_nil (m : MatchMap) (k : String)
    (h : lookupMatches m k ≠ []) : hasKey m k = true := by
  by_cases hk : hasKey m k
  · exact hk
  · exact absurd (lookupMatches_eq_nil_of_hasKey_false m k (by simpa using hk)) h

/-- **C3 (amended)** — For every input text containing a "no pressure"
disclaimer phrase: if no pressure match's matched text contains one of the
code's strong-override indicators (`ultimatum`, `threat`, `or else`,
`we're done`, `must`, `have to`), all pressure matches are discarded and
the pressure score is 0; if some pressure match does contain such an
indicator, the pressure matches are retained. -/
theorem no_pressure_suppression_override (d : MatchMap) (t : String)
    (hsup : containsAnyWordPhrase t noPressurePhrases = true) :
    (((lookupMatches d "pressure").any (fun m =>
        strongPressureIndicators.any (fun ind =>
          containsSub (strLower m.matchedText) ind)) = false →
      lookupMatches (ruleAnalyze d t).1 "pressure" = [] ∧
      lookupScore (ruleAnalyze d t).2 "pressure" = 0) ∧
     ((lookupMatches d "pressure").any (fun m =>
        strongPressureIndicators.any (fun ind =>
          containsSub (strLower m.matchedText) ind)) = true →
      lookupMatches (ruleAnalyze d t).1 "pressure" = lookupMatches d "pressure")) := by
  constructor
  · intro h1
    by_cases hk : hasKey d "pressure"
    · have hS : suppressionApplies d t = true := by
        simp [suppressionApplies, hsup, hk, h1]
      simp only [ruleAnalyze, hS, if_true]
      refine ⟨lookupMatches_setMatches_self d _ _, ?_⟩
      rw [lookupScore_scoresOf, lookupMatches_setMatches_self]
      simp [getCategoryScore]
    · have hnil : lookupMatches d "pressure" = [] :=
        lookupMatches_eq_nil_of_hasKey_false d _ (by simpa using hk)
      have hS : suppressionApplies d t = false := by
        simp [suppressionApplies, hsup, (by simpa using hk : hasKey d "pressure" = false)]
      simp only [ruleAnalyze, hS, Bool.false_eq_true, if_false]
      refine ⟨hnil, ?_⟩
      rw [lookupScore_scoresOf, hnil]
      simp [getCategoryScore]
  · intro h2
    have hne : lookupMatches d "pressure" ≠ [] := by
      intro hniln
      rw [hniln] at h2
      simp at h2
    have hk : hasKey d "pressure" = true := hasKey_of_lookupMatches_ne_nil d _ hne
    have hS : suppressionApplies d t = false := by
      simp [suppressionApplies, hsup, hk, h2]
    simp only [ruleAnalyze, hS, Bool.false_eq_true, if_false]

/-- Witness for C3 at concrete inputs: a retained-on-override map and a
suppressed map, under the disclaimer text `"ok no rush"`. -/
theorem no_pressure_suppression_override_witness :
    containsAnyWordPhrase "ok no rush" noPressurePhrases = true ∧
    lookupMatches (ruleAnalyze [("pressure", [cexUltimatumMatch])] "ok no rush").1
      "pressure" = [cexUltimatumMatch] ∧
    lookupMatches (ruleAnalyze [("pressure", [cexPressureMatch])] "ok no rush").1
      "pressure" = [] ∧
    lookupScore (ruleAnalyze [("pressure", [cexPressureMatch])] "ok no rush").2
      "pressure" = 0 := by
  have hsup : containsAnyWordPhrase "ok no rush" noPressurePhrases = true := by
    with_unfolding_all decide
  have h2 := (no_pressure_suppression_override
      [("pressure", [cexUltimatumMatch])] "ok no rush" hsup).2
      (by with_unfolding_all decide)
  have h1 := (no_pressure_suppression_override
      [("pressure", [cexPressureMatch])] "ok no rush" hsup).1
      (by with_unfolding_all decide)
  refine ⟨hsup, ?_, h1.1, h1.2⟩
  rw [h2]
  with_unfolding_all decide

/-- **C3 (counterexample)** — The claim's override-token list (ultimatum,
"or else", "must", "have to") is incomplete: with the disclaimer
`"ok no rush"` present and a single pressure match whose matched text is
`"we're done"` (containing none of the claim's four tokens), the pressure
matches are retained with score 0.5 instead of being discarded. -/
theorem suppression_token_list_cex :
    containsAnyWordPhrase "ok no rush" noPressurePhrases = true ∧
    ((lookupMatches [("pressure", [cexUltimatumMatch])] "pressure").any (fun m =>
      (["ultimatum", "or else", "must", "have to"] : List String).any (fun ind =>
        containsSub (strLower m.matchedText) ind))) = false ∧
    lookupMatches (ruleAnalyze [("pressure", [cexUltimatumMatch])] "ok no rush").1
      "pressure" = [cexUltimatumMatch] ∧
    lookupScore (ruleAnalyze [("pressure", [cexUltimatumMatch])] "ok no rush").2
      "pressure" = 0.5 := by
  with_unfolding_all decide

/-- **C10** — The rule engine's suppression step modifies at most the
`pressure` entry: every other category keeps exactly the detected match
list and the score computed from it, and whenever suppression changed the
map at all, the `pressure` key is still present, with an empty match list
and score 0. -/
theorem suppression_touches_only_pressure (d : MatchMap) (t : String) :
    (∀ c, c ≠ "pressure" →
      lookupMatches (ruleAnalyze d t).1 c = lookupMatches d c ∧
      lookupScore (ruleAnalyze d t).2 c = getCategoryScore (lookupMatches d c)) ∧
    ((ruleAnalyze d t).1 ≠ d →
      hasKey (ruleAnalyze d t).1 "pressure" = true ∧
      lookupMatches (ruleAnalyze d t).1 "pressure" = [] ∧
      lookupScore (ruleAnalyze d t).2 "pressure" = 0) := by
  by_cases hS : suppressionApplies d t
  · simp only [ruleAnalyze, hS, if_true]
    constructor
    · intro c hc
      refine ⟨lookupMatches_setMatches_ne d _ _ _ hc, ?_⟩
      rw [lookupScore_scoresOf, lookupMatches_setMatches_ne d _ _ _ hc]
    · intro _
      refine ⟨hasKey_setMatches_self d _ _, lookupMatches_setMatches_self d _ _, ?_⟩
      rw [lookupScore_scoresOf, lookupMatches_setMatches_self]
      simp [getCategoryScore]
  · have hS' : suppressionApplies d t = false := by simpa using hS
    constructor
    · intro c _
      simp only [ruleAnalyze, hS', Bool.false_eq_true, if_false]
      refine ⟨by trivial, lookupScore_scoresOf d c⟩
    · intro hne
      exact absurd (by simp only [ruleAnalyze, hS', Bool.false_eq_true, if_false]) hne

/-- Witness for C10: with suppression firing on a two-category map, the
bullying entry is untouched and the pressure entry is emptied in place. -/
theorem suppression_touches_only_pressure_witness :
    lookupMatches (ruleAnalyze [("bullying", [cexStrongMatch]),
      ("pressure", [cexPressureMatch])] "ok no rush").1 "bullying" =
        [cexStrongMatch] ∧
    hasKey (ruleAnalyze [("bullying", [cexStrongMatch]),
      ("pressure", [cexPressureMatch])] "ok no rush").1 "pressure" = true := by
  have h := suppression_touches_only_pressure
    [("bullying", [cexStrongMatch]), ("pressure", [cexPressureMatch])] "ok no rush"
  refine ⟨?_, ?_⟩
  · rw [(h.1 "bullying" (by decide)).1]
    with_unfolding_all decide
  · exact (h.2 (by with_unfolding_all decide)).1

/-! ## C1 — the evidence gate -/

theorem matchMap_hasAny_false (m : MatchMap)
    (h : ∀ p ∈ m, p.2 = ([] : List PatternMatch)) :
    (m.any (fun p => !p.2.isEmpty)) = false := by
  rw [List.any_eq_false]
  intro p hp
  simp [h p hp]

theorem evidenceGate_no_matches (ab : Bool) (ov : ℚ) :
    evidenceGate ab false ov = (RiskLevel.green, 0) := by
  cases ab <;> simp [evidenceGate]

/-- **C1** — For every analysis whose match map has only empty match
lists, the returned result has risk level GREEN and overall score 0,
regardless of the category score map (including ML-only scores). -/
theorem evidence_gate_green (d : MatchMap) (s : List ScoreMap) (a o : Bool)
    (t : String)
    (h : ∀ p ∈ (engineAnalyze d s a o t).matchMap, p.2 = ([] : List PatternMatch)) :
    (engineAnalyze d s a o t).riskLevel = RiskLevel.green ∧
      (engineAnalyze d s a o t).overallScore = 0 := by
  rw [engineAnalyze_matchMap] at h
  have hAny : ((engineMatchMap d t).any (fun p => !p.2.isEmpty)) = false :=
    matchMap_hasAny_false _ h
  have hgate : engineRiskOverall d s a o t 0.6 0.4 = (RiskLevel.green, 0) := by
    simp only [engineRiskOverall]
    rw [hAny, Bool.and_false, evidenceGate_no_matches]
  rw [engineAnalyze_riskLevel, engineAnalyze_overallScore, hgate]
  exact ⟨rfl, rfl⟩

/-- Witness for C1: no category has a pattern match while the ML-only
manipulation score aggregates to 0.36 ≥ 0.3, yet the result is GREEN
with overall score 0. -/
theorem evidence_gate_green_witness :
    (engineAnalyze [("pressure", [])] [[("manipulation", 0.9)]] true true
      "hello").riskLevel = RiskLevel.green ∧
    (engineAnalyze [("pressure", [])] [[("manipulation", 0.9)]] true true
      "hello").overallScore = 0 :=
  evidence_gate_green [("pressure", [])] [[("manipulation", 0.9)]] true true
    "hello" (by with_unfolding_all decide)

/-! ## C5 — hard blockers disable banter suppression -/

/-- **C5** — Whenever a hard blocker is present (coercive secrecy or
manipulation match, threat/ultimatum phrase, severe insult, or two
unrepaired bullying matches), the friendly-banter detector returns false,
so the analysis's category scores are exactly those of the pipeline with
the banter branches disabled. -/
theorem hard_blockers_disable_banter (d : MatchMap) (s : List ScoreMap)
    (a o : Bool) (t : String)
    (h : checkHardBlockers (engineNormalizedText t) (engineMatchMap d t) = true) :
    engineIsFriendlyTeasing d t = false ∧
    (engineAnalyze d s a o t).categoryScores =
      scoreAdjustPipeline false (checkProfessionalContext (engineNormalizedText t))
        (ruleAnalyze d (engineNormalizedText t)).2 (engineMatchMap d t)
        s a o 0.6 0.4 := by
  have hb : engineIsFriendlyTeasing d t = false := by
    unfold engineIsFriendlyTeasing checkFriendlyTeasing
    rw [h]
    simp
  refine ⟨hb, ?_⟩
  rw [engineAnalyze_categoryScores]
  unfold engineCategoryScores
  rw [hb]

/-- Witness for C5: a joking conversation containing `or else` trips the
threat hard blocker, and the banter detector answers false. -/
theorem hard_blockers_disable_banter_witness :
    checkHardBlockers (engineNormalizedText blockerText)
      (engineMatchMap banterDetected blockerText) = true ∧
    engineIsFriendlyTeasing banterDetected blockerText = false := by
  have h : checkHardBlockers (engineNormalizedText blockerText)
      (engineMatchMap banterDetected blockerText) = true := by
    with_unfolding_all decide
  exact ⟨h, (hard_blockers_disable_banter banterDetected [] false true
    blockerText h).1⟩

/-! ## C8 — the RED advice list -/

/-- **C8** — For every RED-level result, the advice returned by `analyze`
is the fixed `ADVICE_MESSAGES_RED` list (one generic message): the
category-specific first message of `get_help_advice` is never produced,
because `analyze` calls it without `category_scores` and `matches`
(engine.py line 253). -/
theorem red_advice_generic_first_message (d : MatchMap) (s : List ScoreMap)
    (a o : Bool) (t : String)
    (h : (engineAnalyze d s a o t).riskLevel = RiskLevel.red) :
    (engineAnalyze d s a o t).advice = adviceMessagesRed := by
  rw [engineAnalyze_riskLevel] at h
  rw [engineAnalyze_advice, h]
  simp [getHelpAdvice]

/-- Witness for C8: a 0.9-confidence pressure match yields a RED result
whose advice is exactly the fixed generic list. -/
theorem red_advice_generic_first_message_witness :
    (engineAnalyze [("pressure", [cexStrongMatch])] [] false true
      "answer right now").riskLevel = RiskLevel.red ∧
    (engineAnalyze [("pressure", [cexStrongMatch])] [] false true
      "answer right now").advice = adviceMessagesRed := by
  have hred : (engineAnalyze [("pressure", [cexStrongMatch])] [] false true
      "answer right now").riskLevel = RiskLevel.red := by
    with_unfolding_all decide
  exact ⟨hred, red_advice_generic_first_message [("pressure", [cexStrongMatch])] []
    false true "answer right now" hred⟩

/-! ## C2 — what the banter path modifies -/

theorem professionalAdjust_false (s : ScoreMap) : professionalAdjust false s = s :=
  rfl

theorem lookupScore_banterRulesAdjust_ne (b : Bool) (R : ScoreMap) (mm : MatchMap)
    (c : String) (hc : c ≠ "bullying") :
    lookupScore (banterRulesAdjust b R mm) c = lookupScore R c := by
  unfold banterRulesAdjust
  cases b
  · rfl
  · simp only [if_true]
    split
    · split
      · exact lookupScore_setScore_ne R _ c _ hc
      · rfl
    · rfl

/-- **C2 (amended)** — When the friendly-banter detector returns true and
the professional-context detector returns false (rules-only mode): at the
rules-result stage only the bullying score is modified, but at the final
stage every positive category score — secrecy, manipulation and pressure
included — is multiplied by 0.3. -/
theorem banter_final_reduction_all_categories (d : MatchMap) (a o : Bool)
    (t : String)
    (hban : engineIsFriendlyTeasing d t = true)
    (hpro : checkProfessionalContext (engineNormalizedText t) = false)
    (c : String) (hc : c ≠ "bullying") :
    lookupScore (engineAnalyze d [] a o t).categoryScores c =
      (if lookupScore (ruleAnalyze d (engineNormalizedText t)).2 c > 0
       then lookupScore (ruleAnalyze d (engineNormalizedText t)).2 c * 0.3
       else lookupScore (ruleAnalyze d (engineNormalizedText t)).2 c) := by
  rw [engineAnalyze_categoryScores]
  unfold engineCategoryScores scoreAdjustPipeline
  rw [hban, hpro]
  generalize (ruleAnalyze d (engineNormalizedText t)).2 = R
  generalize engineMatchMap d t = mm
  simp only [professionalAdjust_false, mlScoresFrom, List.isEmpty_nil,
    Bool.not_true, Bool.and_false, Bool.false_eq_true, if_false,
    Bool.false_and, banterFinalAdjust, if_true]
  rw [lookupScore_banterReduction,
    lookupScore_banterRulesAdjust_ne true _ _ c hc]

/-- Witness for C2 (amended): in the banter conversation the pressure
score 0.5 from the rules stage ends at 0.15 = 0.5 × 0.3. -/
theorem banter_final_reduction_witness :
    engineIsFriendlyTeasing banterDetected banterText = true ∧
    lookupScore (ruleAnalyze banterDetected
      (engineNormalizedText banterText)).2 "pressure" = 0.5 ∧
    lookupScore (engineAnalyze banterDetected [] false true
      banterText).categoryScores "pressure" = 0.15 := by
  have hban : engineIsFriendlyTeasing banterDetected banterText = true := by
    with_unfolding_all decide
  have hpro : checkProfessionalContext (engineNormalizedText banterText) = false := by
    with_unfolding_all decide
  have hrules : lookupScore (ruleAnalyze banterDetected
      (engineNormalizedText banterText)).2 "pressure" = 0.5 := by
    with_unfolding_all decide
  have h := banter_final_reduction_all_categories banterDetected false true
    banterText hban hpro "pressure" (by decide)
  rw [hrules] at h
  refine ⟨hban, hrules, ?_⟩
  rw [h]
  with_unfolding_all decide

/-! ## C7 — GREEN explanations -/

theorem matchlists_nil (m : MatchMap)
    (h : (!m.isEmpty && m.any (fun p => !p.2.isEmpty)) = false) :
    ∀ p ∈ m, p.2 = ([] : List PatternMatch) := by
  cases m with
  | nil => intro p hp; cases hp
  | cons q rest =>
    intro p hp
    simp only [List.isEmpty_cons, Bool.not_false, Bool.true_and] at h
    rw [List.any_eq_false] at h
    have := h p hp
    simpa using this

theorem lookupMatches_nil_of_all (m : MatchMap)
    (h : ∀ p ∈ m, p.2 = ([] : List PatternMatch)) :
    ∀ c, lookupMatches m c = [] := by
  intro c
  induction m with
  | nil => rfl
  | cons q rest ih =>
    simp only [lookupMatches]
    by_cases hq : (q.1 == c) = true
    · rw [if_pos hq]
      exact h q (List.mem_cons_self q rest)
    · rw [if_neg hq]
      exact ih (fun p hp => h p (List.mem_cons_of_mem q hp))

theorem mem_insertDescending (x p : String × ℚ) (l : List (String × ℚ))
    (h : p ∈ insertDescending x l) : p = x ∨ p ∈ l := by
  induction l with
  | nil => simpa [insertDescending] using h
  | cons y ys ih =>
    simp only [insertDescending] at h
    by_cases hc : (x.2 > y.2)
    · rw [if_pos hc] at h
      rcases List.mem_cons.mp h with h1 | h2
      · exact Or.inl h1
      · exact Or.inr h2
    · rw [if_neg hc] at h
      rcases List.mem_cons.mp h with h1 | h2
      · exact Or.inr (h1 ▸ List.mem_cons_self y ys)
      · rcases ih h2 with h3 | h4
        · exact Or.inl h3
        · exact Or.inr (List.mem_cons_of_mem y h4)

theorem mem_sortAux (p : String × ℚ) (l acc : List (String × ℚ))
    (h : p ∈ l.foldl (fun acc x => insertDescending x acc) acc) :
    p ∈ l ∨ p ∈ acc := by
  induction l generalizing acc with
  | nil => exact Or.inr h
  | cons x xs ih =>
    simp only [List.foldl_cons] at h
    rcases ih (insertDescending x acc) h with h1 | h2
    · exact Or.inl (List.mem_cons_of_mem x h1)
    · rcases mem_insertDescending x p acc h2 with h3 | h4
      · exact Or.inl (h3 ▸ List.mem_cons_self x xs)
      · exact Or.inr h4

theorem mem_sortByScoreDescending (p : String × ℚ) (l : List (String × ℚ))
    (h : p ∈ sortByScoreDescending l) : p ∈ l := by
  rcases mem_sortAux p l [] h with h1 | h2
  · exact h1
  · cases h2

theorem foldl_keep (l : List (String × ℚ)) (b : List String) :
    List.foldl (fun acc _ => acc) b l = b := by
  induction l generalizing b with
  | nil => rfl
  | cons x xs ih => exact ih b

/-- **C7 (amended)** — For a GREEN-level explanation with every category
score at most 0.4 (the cap the 0.4 ML weight enforces on ML-only scores):
if some score is ≥ 0.3 while no category has a pattern match, the
explanation is the empty string; in every other case it is the fixed
neutral statement.  Either way it never quotes matched text, mentions
mild patterns, or includes category risk narrative. -/
theorem green_explanation_neutral_or_empty (cs : ScoreMap) (mm : MatchMap)
    (ov : ℚ) (t : String) (hcap : ∀ p ∈ cs, p.2 ≤ 0.4) :
    generateExplanation RiskLevel.green cs mm ov t =
      (if (cs.any fun p => p.2 ≥ 0.3) && !(!mm.isEmpty && mm.any fun p => !p.2.isEmpty)
       then "" else neutralGreenText) := by
  have hgg : (RiskLevel.green == RiskLevel.green) = true := rfl
  have hgy : (RiskLevel.green == RiskLevel.yellow) = false := rfl
  have hgr : (RiskLevel.green == RiskLevel.red) = false := rfl
  by_cases hM : (cs.any fun p => decide (p.2 ≥ 0.3)) = true
  · by_cases hA : (!mm.isEmpty && mm.any fun p => !p.2.isEmpty) = true
    · simp only [generateExplanation, hM, hA, hgg, Bool.true_or, Bool.not_true,
        Bool.and_false, Bool.false_and, Bool.and_true, Bool.true_and,
        Bool.false_eq_true, if_false, if_true]
    · have hA' : (!mm.isEmpty && mm.any fun p => !p.2.isEmpty) = false := by
        simpa using hA
      have hnil := matchlists_nil mm hA'
      have hlk := lookupMatches_nil_of_all mm hnil
      simp only [generateExplanation, hM, hA', hgg, hgy, hgr, Bool.true_or,
        Bool.not_true, Bool.not_false, Bool.and_false, Bool.false_and,
        Bool.and_true, Bool.true_and, Bool.false_eq_true, if_false, if_true]
      generalize hq : sortByScoreDescending (cs.filter fun p => decide (p.2 > 0)) = dc
      have hdc : ∀ p ∈ dc, p.2 ≤ 0.4 := by
        intro p hp
        rw [← hq] at hp
        exact hcap p (List.mem_of_mem_filter (mem_sortByScoreDescending p _ hp))
      cases dc with
      | nil =>
        simp [describeBehaviors, hlk, foldl_keep, dedupKeepFirst, dedupKeepFirstAux]
        rfl
      | cons a l =>
        have ha : a.2 ≤ 0.4 := hdc a (List.mem_cons_self a l)
        have h06 : (decide (a.2 ≥ (0.6 : ℚ))) = false := by
          refine decide_eq_false ?_
          intro hge
          have h1 : (0.6 : ℚ) ≤ 0.4 := le_trans hge ha
          norm_num at h1
        have h05 : (decide (a.2 ≥ (0.5 : ℚ))) = false := by
          refine decide_eq_false ?_
          intro hge
          have h1 : (0.5 : ℚ) ≤ 0.4 := le_trans hge ha
          norm_num at h1
        simp [describeBehaviors, hlk, foldl_keep, dedupKeepFirst, dedupKeepFirstAux,
          h06, h05, hgy, hgr]
        rfl
  · have hM' : (cs.any fun p => decide (p.2 ≥ 0.3)) = false := by
      simpa using hM
    simp only [generateExplanation, hM', hgg, Bool.true_or, Bool.not_false,
      Bool.not_true, Bool.true_and, Bool.and_true, Bool.false_and,
      Bool.and_false, Bool.false_eq_true, if_true, if_false, ite_self]

/-- Witness for C7 (amended): a single 0.32 ML-only manipulation score
with an empty pressure match list gives the empty-string explanation. -/
theorem green_explanation_neutral_or_empty_witness :
    (∀ p ∈ [("manipulation", (0.32 : ℚ))], p.2 ≤ 0.4) ∧
    generateExplanation RiskLevel.green [("manipulation", (0.32 : ℚ))]
      [("pressure", [])] 0 "hello" = "" := by
  refine ⟨by with_unfolding_all decide, ?_⟩
  rw [green_explanation_neutral_or_empty [("manipulation", (0.32 : ℚ))]
    [("pressure", [])] 0 "hello" (by with_unfolding_all decide)]
  with_unfolding_all decide

/-- **C7 (counterexample)** — The claim that every GREEN result carries
the fixed neutral statement is false: an analysis whose manipulation
score is 0.32 ≥ 0.3 from ML-only signal with no pattern match is GREEN,
yet its explanation is the empty string, not the neutral statement. -/
theorem green_ml_only_explanation_cex :
    (engineAnalyze [("pressure", [])] [[("manipulation", (0.8 : ℚ))]] true true
      "hello").riskLevel = RiskLevel.green ∧
    lookupScore (engineAnalyze [("pressure", [])] [[("manipulation", (0.8 : ℚ))]]
      true true "hello").categoryScores "manipulation" ≥ 0.3 ∧
    (engineAnalyze [("pressure", [])] [[("manipulation", (0.8 : ℚ))]] true true
      "hello").explanation = "" ∧
    "" ≠ neutralGreenText := by
  with_unfolding_all decide

/-! ## C9 — idempotence of slang normalization -/

/-- **C9 (amended)** — Slang normalization is idempotent on its output
for representative slang/obfuscated inputs: a second pass changes none of
these normalized texts. -/
theorem normalize_idempotent_representative :
    (["idk what u mean rn", "stf*u lol", "r n pls", "rite now ok",
      "im busy rn sry no pressure", "answer me right now",
      "u gotta reply b4 2nite"].all (fun x =>
        (normalizeMessage (normalizeMessage x).normalizedText).normalizedText ==
          (normalizeMessage x).normalizedText)) = true := by
  with_unfolding_all decide

/-- **C9 (counterexample)** — Normalization is not idempotent on every
input: `"a*a*a"` normalizes to `"aa*a"` (the de-obfuscation scan resumes
after the consumed second character), and a second pass turns that into
`"aa"`. -/
theorem normalize_idempotent_cex :
    (normalizeMessage "a*a*a").normalizedText = "aa*a" ∧
    (normalizeMessage (normalizeMessage "a*a*a").normalizedText).normalizedText = "aa" ∧
    (normalizeMessage (normalizeMessage "a*a*a").normalizedText).normalizedText ≠
      (normalizeMessage "a*a*a").normalizedText := by
  with_unfolding_all decide

/-- **C2 (counterexample)** — The claim that the banter path leaves the
pressure score unchanged is false: with banter detected (and no hard
blocker) the final pressure score is 0.15, not the rules-stage 0.5. -/
theorem banter_modifies_pressure_cex :
    engineIsFriendlyTeasing banterDetected banterText = true ∧
    checkHardBlockers (engineNormalizedText banterText)
      (engineMatchMap banterDetected banterText) = false ∧
    lookupScore (ruleAnalyze banterDetected
      (engineNormalizedText banterText)).2 "pressure" = 0.5 ∧
    lookupScore (engineAnalyze banterDetected [] false true
      banterText).categoryScores "pressure" = 0.15 := by
  with_unfolding_all decide

end ChatCompanion
